import Mathlib

/-!
Verification development for the ESP32 servo controller in
`src/Code/Esp32S3/src/main.cpp` (DIY electric cable machine).

The state-holding parts of the firmware are embedded shallowly:

* the file-scope global variables become the fields of `Ctrl`;
* each Modbus transaction's success/failure is an input supplied by the
  environment (`TickEnv`): read outcomes come from `probeOk` / `cycle`,
  and the n-th bus *write* transaction attempted since the state's
  creation draws its outcome from `writeOk n`, with the counter `wIdx`
  tracking how many write transactions have been attempted;
* every bus write transaction actually placed on the wire is recorded in
  the `events` trace (register writes that are skipped by the
  `!modbusOk && millis() > 5000` guard produce no trace entry);
* the clock (`millis()`) is abstracted into per-tick booleans:
  `checkDue`, `readDue` (interval timers), `afterGrace`
  (`millis() > 5000`) and `startTimeout`
  (`millis() - homingStartTime > HOMING_START_TIMEOUT`);
* one iteration of `appLoop` is `tick`, the composition of the four
  state-changing pipeline stages (the WebSocket status broadcast of
  stage 5 does not change controller state and is omitted);
* commands arriving on the WebSocket (`onWsEvent`, `WS_EVT_DATA`) are
  the constructors of `Cmd`, applied between ticks.

C integer types are modelled as `Nat`/`Int` with explicit reduction
modulo `2^16` / `2^32` where the C code truncates.
-/

namespace CableMachine

/-- Constant `MAX_MODBUS_ERRORS` (main.cpp line 81). -/
def MAX_MODBUS_ERRORS : Nat := 5

/-- Register address `REG_CONTROL_MODE` (0x0000). -/
def REG_CONTROL_MODE : Nat := 0x0000

/-- Register address `REG_TARGET_SPEED` (0x0321). -/
def REG_TARGET_SPEED : Nat := 0x0321

/-- Register address `REG_TORQUE_REF_SRC` (0x0340). -/
def REG_TORQUE_REF_SRC : Nat := 0x0340

/-- Register address `REG_TARGET_TORQUE` (0x0341). -/
def REG_TARGET_TORQUE : Nat := 0x0341

/-- Register address `REG_MODBUS_SERVO_ON` (0x0411). -/
def REG_MODBUS_SERVO_ON : Nat := 0x0411

/-- Register address `REG_DI5_FUNCTION` (0x0410). -/
def REG_DI5_FUNCTION : Nat := 0x0410

/-- Register address `REG_SOFT_LIMIT_ENABLE` (0x0607). -/
def REG_SOFT_LIMIT_ENABLE : Nat := 0x0607

/-- Register address `REG_SOFT_LIMIT_NEG` (0x0608, 32 bit). -/
def REG_SOFT_LIMIT_NEG : Nat := 0x0608

/-- Register address `REG_OUT_OF_CONTROL_PROT` (0x0620). -/
def REG_OUT_OF_CONTROL_PROT : Nat := 0x0620

/-- Constant `HOMING_SPEED_RPM` (main.cpp line 94). -/
def HOMING_SPEED_RPM : Int := 120

/-- Constant `HOMING_TORQUE_THRESHOLD` (main.cpp line 95). -/
def HOMING_TORQUE_THRESHOLD : Int := 200

/-- Reinterpretation of a 16-bit bus word as a C `int16_t`
(two's complement), as happens when `node.getResponseBuffer(0)` is
assigned to an `int16_t` global. -/
def toInt16 (w : Nat) : Int :=
  if w % 65536 < 32768 then ((w % 65536 : Nat) : Int)
  else ((w % 65536 : Nat) : Int) - 65536

/-- Two's-complement 32-bit image of an `int32_t` value, i.e. the
unsigned reinterpretation of its 32 bits. -/
def toUInt32 (v : Int) : Nat := (v % 4294967296).toNat

/-- Low 16-bit word of an `int32_t`: `(uint16_t)(value & 0xFFFF)`
(main.cpp line 496). -/
def lowWord (v : Int) : Nat := toUInt32 v % 65536

/-- High 16-bit word of an `int32_t`: `(uint16_t)(value >> 16)` with
arithmetic shift (main.cpp line 497); for a 32-bit value this equals the
upper half of the two's-complement image. -/
def highWord (v : Int) : Nat := toUInt32 v / 65536

/-- Reconstruction of a signed 32-bit value from two bus words:
`(int32_t)((uint32_t)high << 16 | low)` (main.cpp line 624). -/
def int32OfWords (low high : Nat) : Int :=
  let u := (high <<< 16) ||| low
  if u < 2147483648 then (u : Int) else (u : Int) - 4294967296

/-- Arduino `constrain(x, 0, 2000)` as used on the requested torque
(main.cpp line 712). -/
def constrainTorque (v : Int) : Int := max 0 (min v 2000)

/-- The `HomingState` enum (main.cpp lines 85-91). -/
inductive HomingState where
  | idle
  | start
  | waitForRunning
  | movingSlow
  | done
deriving DecidableEq, Repr

/-- One bus write transaction actually placed on the wire: a
`writeSingleRegister` frame or a two-register `writeMultipleRegisters`
frame carrying a low and a high word. -/
inductive BusWrite where
  | single (reg : Nat) (value : Int)
  | dual (reg : Nat) (low : Nat) (high : Nat)
deriving DecidableEq, Repr

/-- The controller state: the file-scope globals of main.cpp
(lines 66-99) plus the bookkeeping fields `storedHomingPos` (the
non-volatile `"homingPos"` preferences cell), `events` (trace of bus
write transactions) and `wIdx` (count of bus write transactions,
indexing into the environment's outcome stream). -/
structure Ctrl where
  servoIsEnabledTarget : Bool
  servoIsEnabledActual : Bool
  modbusOk : Bool
  currentTargetTorque : Int
  actualSpeed : Int
  actualTorque : Int
  busVoltage : Nat
  rmsCurrent : Int
  actualPosition : Int
  igbtTemp : Int
  motorTemp : Int
  actualServoStatus : Nat
  diStatus : Nat
  modbusConsecutiveErrors : Nat
  enableCmdSent : Bool
  homingState : HomingState
  homingPosition : Int
  storedHomingPos : Int
  events : List BusWrite
  wIdx : Nat
deriving DecidableEq, Repr

/-- The initial values of the globals (main.cpp lines 66-99);
`storedHomingPos` models the preferences cell, initially 0. -/
def initCtrl : Ctrl :=
  { servoIsEnabledTarget := false
    servoIsEnabledActual := false
    modbusOk := false
    currentTargetTorque := 0
    actualSpeed := 0
    actualTorque := 0
    busVoltage := 0
    rmsCurrent := 0
    actualPosition := 0
    igbtTemp := 0
    motorTemp := 0
    actualServoStatus := 0
    diStatus := 0
    modbusConsecutiveErrors := 0
    enableCmdSent := false
    homingState := HomingState.idle
    homingPosition := 0
    storedHomingPos := 0
    events := []
    wIdx := 0 }

/-- Outcomes and raw 16-bit payloads of the nine reads of one
`readServoData` cycle (main.cpp lines 592-639). Payload words are the
raw `uint16_t` response-buffer contents. -/
structure ReadCycle where
  statusOk : Bool
  statusVal : Nat
  diOk : Bool
  diVal : Nat
  speedOk : Bool
  speedVal : Nat
  torqueOk : Bool
  torqueVal : Nat
  vbusOk : Bool
  vbusVal : Nat
  curOk : Bool
  curVal : Nat
  posOk : Bool
  posLow : Nat
  posHigh : Nat
  igbtOk : Bool
  igbtVal : Nat
  motorOk : Bool
  motorVal : Nat
deriving DecidableEq, Repr

/-- The `readSuccessCurrentCycle` aggregate: the cycle succeeded iff all
nine reads succeeded. -/
def ReadCycle.allOk (c : ReadCycle) : Bool :=
  c.statusOk && c.diOk && c.speedOk && c.torqueOk && c.vbusOk &&
    c.curOk && c.posOk && c.igbtOk && c.motorOk

/-- Per-tick environment: clock abstractions and bus outcomes. -/
structure TickEnv where
  checkDue : Bool
  readDue : Bool
  afterGrace : Bool
  probeOk : Bool
  cycle : ReadCycle
  startTimeout : Bool
  writeOk : Nat → Bool

/-- The `writeRegister` function (main.cpp lines 474-488): guarded by
`!modbusOk && millis() > 5000`; on transaction failure it forces the
fail-safe state and saturates the error counter; on success it resets
the error counter. -/
def writeRegister (env : TickEnv) (s : Ctrl) (reg : Nat) (value : Int) :
    Ctrl × Bool :=
  if !s.modbusOk && env.afterGrace then (s, false)
  else
    let ok := env.writeOk s.wIdx
    let s1 := { s with wIdx := s.wIdx + 1,
                       events := s.events ++ [BusWrite.single reg value] }
    if ok then ({ s1 with modbusConsecutiveErrors := 0 }, true)
    else
      ({ s1 with modbusOk := false, actualServoStatus := 0,
                 servoIsEnabledTarget := false,
                 servoIsEnabledActual := false,
                 modbusConsecutiveErrors := MAX_MODBUS_ERRORS }, false)

/-- The `writeRegister32bit` function (main.cpp lines 493-515): one
two-register transaction carrying the low and high words. -/
def writeRegister32bit (env : TickEnv) (s : Ctrl) (reg : Nat)
    (value : Int) : Ctrl × Bool :=
  if !s.modbusOk && env.afterGrace then (s, false)
  else
    let ok := env.writeOk s.wIdx
    let s1 := { s with wIdx := s.wIdx + 1,
                       events := s.events ++
                         [BusWrite.dual reg (lowWord value) (highWord value)] }
    if ok then ({ s1 with modbusConsecutiveErrors := 0 }, true)
    else
      ({ s1 with modbusOk := false, actualServoStatus := 0,
                 servoIsEnabledTarget := false,
                 servoIsEnabledActual := false,
                 modbusConsecutiveErrors := MAX_MODBUS_ERRORS }, false)

/-- The `enableServoModbus` function (main.cpp lines 519-530): one write
of 1 to the enable register (the delays carry no state). -/
def enableServoModbus (env : TickEnv) (s : Ctrl) : Ctrl × Bool :=
  writeRegister env s REG_MODBUS_SERVO_ON 1

/-- The `disableServoModbus` function (main.cpp lines 533-557): write 0
to the enable register, write 0 to the target torque register, zero the
internal torque target on every branch, and on failure (or with the
link already down) force `servoIsEnabledActual` false and the status to
fault-or-not-ready. -/
def disableServoModbus (env : TickEnv) (s : Ctrl) : Ctrl × Bool :=
  let p := writeRegister env s REG_MODBUS_SERVO_ON 0
  let success := p.2
  let q := writeRegister env p.1 REG_TARGET_TORQUE 0
  let s2 := { q.1 with currentTargetTorque := 0 }
  let s3 :=
    if !success || !s2.modbusOk then
      { s2 with actualServoStatus := if s2.actualServoStatus = 3 then 3 else 0,
                servoIsEnabledActual := false }
    else s2
  (s3, success)

/-- The `checkModbusConnection` probe (main.cpp lines 560-578): one read
of the control-mode register; success sets the link Ok and resets the
counter, failure forces the fail-safe state and saturates the
counter. -/
def checkModbusConnection (env : TickEnv) (s : Ctrl) : Ctrl × Bool :=
  if env.probeOk then
    ({ s with modbusOk := true, modbusConsecutiveErrors := 0 }, true)
  else
    ({ s with modbusOk := false, actualServoStatus := 0,
              servoIsEnabledTarget := false, servoIsEnabledActual := false,
              modbusConsecutiveErrors := MAX_MODBUS_ERRORS }, false)

/-- The nine per-register conditional updates of `readServoData`
(main.cpp lines 592-639). In the source they are sequential assignments
to pairwise distinct globals, so they are rendered as one simultaneous
record update. -/
def applyReads (c : ReadCycle) (s : Ctrl) : Ctrl :=
  { s with
    actualServoStatus := if c.statusOk then c.statusVal else s.actualServoStatus
    diStatus := if c.diOk then c.diVal else s.diStatus
    actualSpeed := if c.speedOk then toInt16 c.speedVal else s.actualSpeed
    actualTorque := if c.torqueOk then toInt16 c.torqueVal else s.actualTorque
    busVoltage := if c.vbusOk then c.vbusVal else s.busVoltage
    rmsCurrent := if c.curOk then toInt16 c.curVal else s.rmsCurrent
    actualPosition := if c.posOk then int32OfWords c.posLow c.posHigh
                      else s.actualPosition
    igbtTemp := if c.igbtOk then toInt16 c.igbtVal else s.igbtTemp
    motorTemp := if c.motorOk then toInt16 c.motorVal else s.motorTemp }

/-- The `readServoData` function (main.cpp lines 582-668): early exit
when the link is down and the counter is saturated; otherwise apply the
per-register reads, then on a failed cycle increment the counter and on
crossing the threshold force the fail-safe state; on a fully successful
cycle reset the counter, set the link Ok and derive
`servoIsEnabledActual` from status 2 (Running). -/
def readServoData (c : ReadCycle) (s : Ctrl) : Ctrl × Bool :=
  if !s.modbusOk && decide (s.modbusConsecutiveErrors ≥ MAX_MODBUS_ERRORS) then
    (s, false)
  else
    let s1 := applyReads c s
    if !c.allOk then
      let s2 := { s1 with modbusConsecutiveErrors :=
                            s1.modbusConsecutiveErrors + 1 }
      if MAX_MODBUS_ERRORS ≤ s2.modbusConsecutiveErrors then
        ({ s2 with modbusOk := false, actualServoStatus := 0,
                   servoIsEnabledTarget := false,
                   servoIsEnabledActual := false,
                   igbtTemp := 0, motorTemp := 0 }, false)
      else (s2, false)
    else
      ({ s1 with modbusConsecutiveErrors := 0, modbusOk := true,
                 servoIsEnabledActual := s1.actualServoStatus == 2 }, true)

/-- Commands parsed from the WebSocket JSON payload
(main.cpp lines 706-769); `getStatus` only emits output and is
omitted. The `setTorque` payload is the value after the C cast to
`int16_t`. -/
inductive Cmd where
  | setTorque (v : Int)
  | enableServo
  | disableServo
  | setDI5Func (v : Int)
  | startHoming
  | eStop
deriving DecidableEq, Repr

/-- The `startHoming` handler (main.cpp lines 750-759): guarded by
`modbusOk && !servoIsEnabledActual && homingState == HOMING_IDLE`;
the returned boolean is true on acceptance and false on the rejection
that sends the `homingStatus:"failed"` notification. -/
def onStartHoming (s : Ctrl) : Ctrl × Bool :=
  if s.modbusOk = true ∧ s.servoIsEnabledActual = false ∧
      s.homingState = HomingState.idle then
    ({ s with homingState := HomingState.start }, true)
  else (s, false)

/-- The `eStop` handler (main.cpp lines 760-769): force the target off,
zero the torque target, abort homing to Idle, then send the disable
command immediately. -/
def eStopCmd (env : TickEnv) (s : Ctrl) : Ctrl :=
  let s1 := { s with servoIsEnabledTarget := false,
                     currentTargetTorque := 0,
                     homingState := HomingState.idle }
  (disableServoModbus env s1).1

/-- Application of one WebSocket command (main.cpp lines 706-769). -/
def applyCmd (env : TickEnv) (s : Ctrl) (c : Cmd) : Ctrl :=
  match c with
  | Cmd.setTorque v => { s with currentTargetTorque := constrainTorque v }
  | Cmd.enableServo => { s with servoIsEnabledTarget := true }
  | Cmd.disableServo =>
      { s with servoIsEnabledTarget := false, currentTargetTorque := 0 }
  | Cmd.setDI5Func v =>
      if s.modbusOk then (writeRegister env s REG_DI5_FUNCTION v).1 else s
  | Cmd.startHoming => (onStartHoming s).1
  | Cmd.eStop => eStopCmd env s

/-- Application of a batch of WebSocket commands arriving before a
tick. -/
def applyCmds (env : TickEnv) (s : Ctrl) (cs : List Cmd) : Ctrl :=
  cs.foldl (applyCmd env) s

/-- Pipeline stage 1 of `appLoop` (main.cpp lines 909-922): while the
link is down and the probe interval elapsed, run the probe; on a
successful probe re-apply the whole drive configuration. -/
def checkStep (env : TickEnv) (s : Ctrl) : Ctrl :=
  if !s.modbusOk && env.checkDue then
    let s1 := (checkModbusConnection env s).1
    if s1.modbusOk then
      let s2 := { (disableServoModbus env s1).1 with enableCmdSent := false }
      let s3 := (writeRegister env s2 REG_CONTROL_MODE 2).1
      let s4 := (writeRegister env s3 REG_TORQUE_REF_SRC 0).1
      let s5 := (writeRegister32bit env s4 REG_SOFT_LIMIT_NEG
                  s4.homingPosition).1
      let s6 := (writeRegister env s5 REG_SOFT_LIMIT_ENABLE 1).1
      (writeRegister env s6 REG_OUT_OF_CONTROL_PROT 0).1
    else s1
  else s

/-- Pipeline stage 2 of `appLoop` (main.cpp lines 925-930): the
telemetry read, gated by the link state / error counter and the read
interval. -/
def readStep (env : TickEnv) (s : Ctrl) : Ctrl :=
  if (s.modbusOk || decide (s.modbusConsecutiveErrors < MAX_MODBUS_ERRORS)) &&
      env.readDue then
    (readServoData env.cycle s).1
  else s

/-- Pipeline stage 3 of `appLoop`: the homing state machine
(main.cpp lines 933-1047). On link loss the source resets
`homingState` to Idle before the switch, so the switch then dispatches
on Idle and does nothing further; that path is rendered as an early
return of the reset state. `&&` short-circuiting of the C condition on
line 949 is preserved. -/
def homingStep (env : TickEnv) (s : Ctrl) : Ctrl :=
  if s.homingState = HomingState.idle then s
  else if !s.modbusOk then { s with homingState := HomingState.idle }
  else
    match s.homingState with
    | HomingState.idle => s
    | HomingState.start =>
        let p1 := writeRegister env s REG_SOFT_LIMIT_ENABLE 0
        if p1.2 then
          let p2 := writeRegister env p1.1 REG_CONTROL_MODE 1
          if p2.2 then
            let p3 := writeRegister env p2.1 REG_TARGET_SPEED HOMING_SPEED_RPM
            if p3.2 then
              let p4 := enableServoModbus env p3.1
              if p4.2 then
                { p4.1 with homingState := HomingState.waitForRunning }
              else
                let p5 := writeRegister env p4.1 REG_CONTROL_MODE 2
                let p6 := writeRegister env p5.1 REG_SOFT_LIMIT_ENABLE 1
                { p6.1 with homingState := HomingState.idle }
            else
              let p4 := writeRegister env p3.1 REG_SOFT_LIMIT_ENABLE 1
              { p4.1 with homingState := HomingState.idle }
          else
            let p3 := writeRegister env p2.1 REG_SOFT_LIMIT_ENABLE 1
            { p3.1 with homingState := HomingState.idle }
        else { p1.1 with homingState := HomingState.idle }
    | HomingState.waitForRunning =>
        if s.servoIsEnabledActual then
          { s with homingState := HomingState.movingSlow }
        else if s.actualServoStatus = 3 then
          let p1 := writeRegister env s REG_SOFT_LIMIT_ENABLE 1
          { p1.1 with homingState := HomingState.idle }
        else if env.startTimeout then
          let p1 := disableServoModbus env s
          let p2 := writeRegister env p1.1 REG_CONTROL_MODE 2
          let p3 := writeRegister env p2.1 REG_SOFT_LIMIT_ENABLE 1
          { p3.1 with homingState := HomingState.idle }
        else s
    | HomingState.movingSlow =>
        if s.servoIsEnabledActual then
          if abs s.actualTorque > HOMING_TORQUE_THRESHOLD then
            { s with homingPosition := s.actualPosition,
                     homingState := HomingState.done }
          else s
        else
          let p1 := writeRegister env s REG_SOFT_LIMIT_ENABLE 1
          { p1.1 with homingState := HomingState.idle }
    | HomingState.done =>
        let p1 := disableServoModbus env s
        let p2 := writeRegister env p1.1 REG_CONTROL_MODE 2
        let p3 := writeRegister env p2.1 REG_TARGET_TORQUE 0
        let p4 := writeRegister env p3.1 REG_TARGET_SPEED 0
        let p5 := writeRegister32bit env p4.1 REG_SOFT_LIMIT_NEG
                    p4.1.homingPosition
        let p6 := writeRegister env p5.1 REG_SOFT_LIMIT_ENABLE 1
        { p6.1 with storedHomingPos := p6.1.homingPosition,
                    homingState := HomingState.idle }

/-- Pipeline stage 4 of `appLoop`: the enable/disable transition
controller and torque transmission (main.cpp lines 1051-1098), run only
when homing is idle; with the link down it forces the internal disabled
state instead. -/
def servoStep (env : TickEnv) (s : Ctrl) : Ctrl :=
  if s.homingState = HomingState.idle then
    if s.modbusOk then
      let s1 :=
        if s.servoIsEnabledTarget && !s.servoIsEnabledActual then
          if s.actualServoStatus = 1 ∧ s.enableCmdSent = false then
            let p := enableServoModbus env s
            if p.2 then { p.1 with enableCmdSent := true } else p.1
          else s
        else if !s.servoIsEnabledTarget && s.servoIsEnabledActual then
          let p := disableServoModbus env s
          if p.2 then { p.1 with enableCmdSent := false } else p.1
        else
          if !s.servoIsEnabledTarget && !s.servoIsEnabledActual then
            { s with enableCmdSent := false }
          else
            { s with enableCmdSent := true }
      if s1.servoIsEnabledActual then
        (writeRegister env s1 REG_TARGET_TORQUE s1.currentTargetTorque).1
      else s1
    else
      if s.servoIsEnabledActual || s.servoIsEnabledTarget ||
          s.enableCmdSent then
        { s with servoIsEnabledActual := false, servoIsEnabledTarget := false,
                 actualServoStatus := 0, enableCmdSent := false }
      else s
  else s

/-- The state after stages 1 and 2 of a tick: the state the homing
machine and the transition controller observe. -/
def tickPre (env : TickEnv) (s : Ctrl) : Ctrl :=
  readStep env (checkStep env s)

/-- One full `appLoop` iteration (the stage-5 broadcast carries no
controller state). -/
def tick (env : TickEnv) (s : Ctrl) : Ctrl :=
  servoStep env (homingStep env (tickPre env s))

/-- One step of an execution: the WebSocket commands that arrived since
the previous tick, followed by one tick. -/
structure Step where
  cmds : List Cmd
  env : TickEnv

/-- Apply one execution step. -/
def runStep (s : Ctrl) (st : Step) : Ctrl :=
  tick st.env (applyCmds st.env s st.cmds)

/-- Apply a whole execution. -/
def run (s : Ctrl) (steps : List Step) : Ctrl :=
  steps.foldl runStep s

/-- The mid-tick states of an execution: for each step, the state after
stages 1-2 of its tick (what the homing machine observes during that
tick). -/
def midStates : Ctrl → List Step → List Ctrl
  | _, [] => []
  | s, st :: rest =>
      tickPre st.env (applyCmds st.env s st.cmds) ::
        midStates (runStep s st) rest

/-- The application-relevant part of `setupApp`
(main.cpp lines 808-874): the homing position is hardcoded to 999999
(line 813; the preferences load on lines 816-819 is commented out), the
initial probe runs, on success the drive is configured (lines 833-859),
and the state variables are reset (lines 872-873). `stored` is the
content of the non-volatile `"homingPos"` cell at boot. -/
def setupApp (env : TickEnv) (stored : Int) (s : Ctrl) : Ctrl :=
  let s0 := { s with homingPosition := 999999, storedHomingPos := stored }
  let s1 := (checkModbusConnection env s0).1
  let s2 :=
    if s1.modbusOk then
      let t1 := (disableServoModbus env s1).1
      let t2 := (writeRegister env t1 REG_CONTROL_MODE 2).1
      let t3 := (writeRegister env t2 REG_TORQUE_REF_SRC 0).1
      let t4 := (writeRegister env t3 REG_TARGET_TORQUE 0).1
      let t5 := (writeRegister32bit env t4 REG_SOFT_LIMIT_NEG
                  t4.homingPosition).1
      let t6 := (writeRegister env t5 REG_SOFT_LIMIT_ENABLE 1).1
      (writeRegister env t6 REG_OUT_OF_CONTROL_PROT 0).1
    else s1
  { s2 with servoIsEnabledTarget := false, servoIsEnabledActual := false,
            currentTargetTorque := 0, actualServoStatus := 0,
            modbusConsecutiveErrors := 0, homingState := HomingState.idle }

/-- Recognizer for the enable command write `(0x0411, 1)`. -/
def isEnableWrite : BusWrite → Bool
  | BusWrite.single reg v => reg == REG_MODBUS_SERVO_ON && v == 1
  | BusWrite.dual _ _ _ => false

/-- Number of enable command writes placed on the wire so far. -/
def enableCount (s : Ctrl) : Nat :=
  s.events.countP (fun e => isEnableWrite e)

/-- Tick-entry condition of the at-most-one-enable property: the
transition controller is active (homing idle) and sees target on,
observed off, drive Ready. -/
def entryOk (s : Ctrl) : Bool :=
  decide (s.homingState = HomingState.idle) && s.servoIsEnabledTarget &&
    !s.servoIsEnabledActual && (s.actualServoStatus == 1)

/-- An execution every tick of which starts (after its commands) in a
state satisfying `entryOk`. -/
def goodRun : Ctrl → List Step → Bool
  | _, [] => true
  | s, st :: rest =>
      entryOk (applyCmds st.env s st.cmds) && goodRun (runStep s st) rest

/-- An all-true write-outcome stream with quiet timers, used for
concrete executions. -/
def envAllOk : TickEnv :=
  { checkDue := false
    readDue := false
    afterGrace := true
    probeOk := true
    cycle := { statusOk := true, statusVal := 0, diOk := true, diVal := 0,
               speedOk := true, speedVal := 0, torqueOk := true,
               torqueVal := 0, vbusOk := true, vbusVal := 0, curOk := true,
               curVal := 0, posOk := true, posLow := 0, posHigh := 0,
               igbtOk := true, igbtVal := 0, motorOk := true, motorVal := 0 }
    startTimeout := false
    writeOk := fun _ => true }

end CableMachine

namespace CableMachine

/-! Helper lemmas: case destructors and projection facts for the
transport functions. -/

theorem writeRegister_cases (env : TickEnv) (s : Ctrl) (reg : Nat) (v : Int) :
    (writeRegister env s reg v = (s, false) ∧ s.modbusOk = false ∧
      env.afterGrace = true) ∨
    (env.writeOk s.wIdx = true ∧ writeRegister env s reg v =
      ({ s with wIdx := s.wIdx + 1,
                events := s.events ++ [BusWrite.single reg v],
                modbusConsecutiveErrors := 0 }, true)) ∨
    (env.writeOk s.wIdx = false ∧ writeRegister env s reg v =
      ({ s with wIdx := s.wIdx + 1,
                events := s.events ++ [BusWrite.single reg v],
                modbusOk := false, actualServoStatus := 0,
                servoIsEnabledTarget := false, servoIsEnabledActual := false,
                modbusConsecutiveErrors := MAX_MODBUS_ERRORS }, false)) := by
  by_cases hg : (!s.modbusOk && env.afterGrace) = true
  · left
    have hh : s.modbusOk = false ∧ env.afterGrace = true := by simpa using hg
    exact ⟨by simp [writeRegister, hg], hh.1, hh.2⟩
  · by_cases hw : env.writeOk s.wIdx = true
    · right; left
      exact ⟨hw, by simp [writeRegister, hg, hw]⟩
    · right; right
      refine ⟨by simpa using hw, by simp [writeRegister, hg, hw]⟩

theorem writeRegister32bit_cases (env : TickEnv) (s : Ctrl) (reg : Nat)
    (v : Int) :
    (writeRegister32bit env s reg v = (s, false) ∧ s.modbusOk = false ∧
      env.afterGrace = true) ∨
    (env.writeOk s.wIdx = true ∧ writeRegister32bit env s reg v =
      ({ s with wIdx := s.wIdx + 1,
                events := s.events ++
                  [BusWrite.dual reg (lowWord v) (highWord v)],
                modbusConsecutiveErrors := 0 }, true)) ∨
    (env.writeOk s.wIdx = false ∧ writeRegister32bit env s reg v =
      ({ s with wIdx := s.wIdx + 1,
                events := s.events ++
                  [BusWrite.dual reg (lowWord v) (highWord v)],
                modbusOk := false, actualServoStatus := 0,
                servoIsEnabledTarget := false, servoIsEnabledActual := false,
                modbusConsecutiveErrors := MAX_MODBUS_ERRORS }, false)) := by
  by_cases hg : (!s.modbusOk && env.afterGrace) = true
  · left
    have hh : s.modbusOk = false ∧ env.afterGrace = true := by simpa using hg
    exact ⟨by simp [writeRegister32bit, hg], hh.1, hh.2⟩
  · by_cases hw : env.writeOk s.wIdx = true
    · right; left
      exact ⟨hw, by simp [writeRegister32bit, hg, hw]⟩
    · right; right
      refine ⟨by simpa using hw, by simp [writeRegister32bit, hg, hw]⟩

theorem writeRegister_pres (env : TickEnv) (s : Ctrl) (reg : Nat) (v : Int) :
    (writeRegister env s reg v).1.homingState = s.homingState ∧
    (writeRegister env s reg v).1.enableCmdSent = s.enableCmdSent ∧
    (writeRegister env s reg v).1.currentTargetTorque =
      s.currentTargetTorque ∧
    (writeRegister env s reg v).1.homingPosition = s.homingPosition ∧
    (writeRegister env s reg v).1.storedHomingPos = s.storedHomingPos ∧
    (writeRegister env s reg v).1.actualTorque = s.actualTorque ∧
    (writeRegister env s reg v).1.actualPosition = s.actualPosition := by
  rcases writeRegister_cases env s reg v with ⟨he, -, -⟩ | ⟨-, he⟩ | ⟨-, he⟩ <;>
    rw [he] <;> exact ⟨rfl, rfl, rfl, rfl, rfl, rfl, rfl⟩

theorem writeRegister32bit_pres (env : TickEnv) (s : Ctrl) (reg : Nat)
    (v : Int) :
    (writeRegister32bit env s reg v).1.homingState = s.homingState ∧
    (writeRegister32bit env s reg v).1.enableCmdSent = s.enableCmdSent ∧
    (writeRegister32bit env s reg v).1.currentTargetTorque =
      s.currentTargetTorque ∧
    (writeRegister32bit env s reg v).1.homingPosition = s.homingPosition ∧
    (writeRegister32bit env s reg v).1.storedHomingPos =
      s.storedHomingPos := by
  rcases writeRegister32bit_cases env s reg v with
    ⟨he, -, -⟩ | ⟨-, he⟩ | ⟨-, he⟩ <;> rw [he] <;> exact ⟨rfl, rfl, rfl, rfl, rfl⟩

theorem writeRegister_modbusOk_false (env : TickEnv) (s : Ctrl) (reg : Nat)
    (v : Int) (h : s.modbusOk = false) :
    (writeRegister env s reg v).1.modbusOk = false := by
  rcases writeRegister_cases env s reg v with ⟨he, -, -⟩ | ⟨-, he⟩ | ⟨-, he⟩ <;>
    rw [he] <;> simpa using h

theorem writeRegister32bit_modbusOk_false (env : TickEnv) (s : Ctrl)
    (reg : Nat) (v : Int) (h : s.modbusOk = false) :
    (writeRegister32bit env s reg v).1.modbusOk = false := by
  rcases writeRegister32bit_cases env s reg v with
    ⟨he, -, -⟩ | ⟨-, he⟩ | ⟨-, he⟩ <;> rw [he] <;> simpa using h

theorem disableServoModbus_pres (env : TickEnv) (s : Ctrl) :
    (disableServoModbus env s).1.homingState = s.homingState ∧
    (disableServoModbus env s).1.enableCmdSent = s.enableCmdSent ∧
    (disableServoModbus env s).1.currentTargetTorque = 0 ∧
    (disableServoModbus env s).1.homingPosition = s.homingPosition ∧
    (disableServoModbus env s).1.storedHomingPos = s.storedHomingPos := by
  obtain ⟨a1, a2, a3, a4, a5, a6, a7⟩ :=
    writeRegister_pres env s REG_MODBUS_SERVO_ON 0
  obtain ⟨b1, b2, b3, b4, b5, b6, b7⟩ := writeRegister_pres env
    (writeRegister env s REG_MODBUS_SERVO_ON 0).1 REG_TARGET_TORQUE 0
  simp only [disableServoModbus]
  split <;> simp [a1, a2, a4, a5, b1, b2, b4, b5]

theorem disableServoModbus_modbusOk_false (env : TickEnv) (s : Ctrl)
    (h : s.modbusOk = false) :
    (disableServoModbus env s).1.modbusOk = false := by
  have h1 := writeRegister_modbusOk_false env s REG_MODBUS_SERVO_ON 0 h
  have h2 := writeRegister_modbusOk_false env
    (writeRegister env s REG_MODBUS_SERVO_ON 0).1 REG_TARGET_TORQUE 0 h1
  simp only [disableServoModbus]
  split <;> simp [h2]

theorem writeRegister_target_false (env : TickEnv) (s : Ctrl) (reg : Nat)
    (v : Int) (h : s.servoIsEnabledTarget = false) :
    (writeRegister env s reg v).1.servoIsEnabledTarget = false := by
  rcases writeRegister_cases env s reg v with ⟨he, -, -⟩ | ⟨-, he⟩ | ⟨-, he⟩ <;>
    rw [he] <;> simpa using h

theorem disableServoModbus_target_false (env : TickEnv) (s : Ctrl)
    (h : s.servoIsEnabledTarget = false) :
    (disableServoModbus env s).1.servoIsEnabledTarget = false := by
  have h1 := writeRegister_target_false env s REG_MODBUS_SERVO_ON 0 h
  have h2 := writeRegister_target_false env
    (writeRegister env s REG_MODBUS_SERVO_ON 0).1 REG_TARGET_TORQUE 0 h1
  simp only [disableServoModbus]
  split <;> simp [h2]

end CableMachine

namespace CableMachine

theorem shiftLeft16_lor_eq (h l : Nat) (hl : l < 65536) :
    (h <<< 16) ||| l = 65536 * h + l := by
  have hl2 : l < 2 ^ 16 := by norm_num at hl ⊢; exact hl
  calc (h <<< 16) ||| l = 2 ^ 16 * h ||| l := by
        rw [Nat.shiftLeft_eq, Nat.mul_comm]
    _ = 2 ^ 16 * h + l := (Nat.mul_add_lt_is_or hl2 h).symm
    _ = 65536 * h + l := by norm_num

/-- Claim C8: encoding a signed 32-bit value as a low word and a high
word (exactly as `writeRegister32bit` frames the soft-limit value) and
reconstructing it the way the position-feedback read does
(`(int32_t)((uint32_t)high << 16 | low)`) gives back the value,
including negatives under two's complement; and the frame placed on the
bus by `writeRegister32bit` carries exactly these two words. -/
theorem soft_limit_roundtrip (v : Int)
    (hlo : -2147483648 ≤ v) (hhi : v < 2147483648) :
    int32OfWords (lowWord v) (highWord v) = v ∧
    (∀ env s reg, s.modbusOk = true →
      (writeRegister32bit env s reg v).1.events =
        s.events ++ [BusWrite.dual reg (lowWord v) (highWord v)]) := by
  constructor
  · have hn0 : 0 ≤ v % 4294967296 := Int.emod_nonneg v (by norm_num)
    obtain ⟨m, hm⟩ := Int.eq_ofNat_of_zero_le hn0
    have hmlt : (m : Int) < 4294967296 := by
      rw [← hm]; exact Int.emod_lt_of_pos v (by norm_num)
    have hcase : (m : Int) = v ∨ (m : Int) = v + 4294967296 := by omega
    have hlow : lowWord v = m % 65536 := by
      simp [lowWord, toUInt32, hm]
    have hhigh : highWord v = m / 65536 := by
      simp [highWord, toUInt32, hm]
    have hlor : ((m / 65536) <<< 16) ||| (m % 65536) = m := by
      rw [shiftLeft16_lor_eq _ _ (Nat.mod_lt _ (by norm_num))]
      exact Nat.div_add_mod m 65536
    rw [hlow, hhigh]
    simp only [int32OfWords, hlor]
    rcases hcase with h | h
    · have hb : m < 2147483648 := by omega
      simp [hb]; omega
    · have hb : ¬ m < 2147483648 := by omega
      simp [hb]; omega
  · intro env s reg hs
    rcases writeRegister32bit_cases env s reg v with
      ⟨-, hc, -⟩ | ⟨-, he⟩ | ⟨-, he⟩
    · rw [hs] at hc; exact absurd hc (by simp)
    · rw [he]
    · rw [he]

/-- Witness for C8 at the concrete stall position −48213. -/
theorem soft_limit_roundtrip_witness :
    int32OfWords (lowWord (-48213)) (highWord (-48213)) = -48213 ∧
    (∀ env s reg, s.modbusOk = true →
      (writeRegister32bit env s reg (-48213)).1.events =
        s.events ++
          [BusWrite.dual reg (lowWord (-48213)) (highWord (-48213))]) :=
  soft_limit_roundtrip (-48213) (by norm_num) (by norm_num)

/-- Claim C3: whenever the transport reports a `writeRegister` or
`writeRegister32bit` transaction as failed (the transaction was
attempted, i.e. the startup-grace guard passed, and its outcome is
failure), the call returns false and immediately forces
DesiredEnable/ObservedEnable off, the link Failed and the error counter
to the threshold. -/
theorem write_failure_failsafe (env : TickEnv) (s : Ctrl) (reg : Nat)
    (v : Int) (hlink : s.modbusOk = true ∨ env.afterGrace = false)
    (hfail : env.writeOk s.wIdx = false) :
    ((writeRegister env s reg v).2 = false ∧
      (writeRegister env s reg v).1.servoIsEnabledTarget = false ∧
      (writeRegister env s reg v).1.servoIsEnabledActual = false ∧
      (writeRegister env s reg v).1.modbusOk = false ∧
      (writeRegister env s reg v).1.modbusConsecutiveErrors =
        MAX_MODBUS_ERRORS) ∧
    ((writeRegister32bit env s reg v).2 = false ∧
      (writeRegister32bit env s reg v).1.servoIsEnabledTarget = false ∧
      (writeRegister32bit env s reg v).1.servoIsEnabledActual = false ∧
      (writeRegister32bit env s reg v).1.modbusOk = false ∧
      (writeRegister32bit env s reg v).1.modbusConsecutiveErrors =
        MAX_MODBUS_ERRORS) := by
  have hguard : (!s.modbusOk && env.afterGrace) = false := by
    rcases hlink with h | h <;> simp [h]
  constructor <;>
    simp [writeRegister, writeRegister32bit, hguard, hfail]

/-- Witness for C3: a failing write on a healthy link. -/
theorem write_failure_failsafe_witness :
    (({ initCtrl with modbusOk := true } : Ctrl).modbusOk = true ∨
      ({ envAllOk with writeOk := fun _ => false } : TickEnv).afterGrace =
        false) ∧
    ({ envAllOk with writeOk := fun _ => false } : TickEnv).writeOk
      ({ initCtrl with modbusOk := true } : Ctrl).wIdx = false ∧
    ((writeRegister { envAllOk with writeOk := fun _ => false }
        { initCtrl with modbusOk := true } REG_TARGET_TORQUE 7).2 = false ∧
      (writeRegister { envAllOk with writeOk := fun _ => false }
        { initCtrl with modbusOk := true } REG_TARGET_TORQUE
          7).1.servoIsEnabledTarget = false ∧
      (writeRegister { envAllOk with writeOk := fun _ => false }
        { initCtrl with modbusOk := true } REG_TARGET_TORQUE
          7).1.servoIsEnabledActual = false ∧
      (writeRegister { envAllOk with writeOk := fun _ => false }
        { initCtrl with modbusOk := true } REG_TARGET_TORQUE
          7).1.modbusOk = false ∧
      (writeRegister { envAllOk with writeOk := fun _ => false }
        { initCtrl with modbusOk := true } REG_TARGET_TORQUE
          7).1.modbusConsecutiveErrors = MAX_MODBUS_ERRORS) ∧
    ((writeRegister32bit { envAllOk with writeOk := fun _ => false }
        { initCtrl with modbusOk := true } REG_TARGET_TORQUE 7).2 = false ∧
      (writeRegister32bit { envAllOk with writeOk := fun _ => false }
        { initCtrl with modbusOk := true } REG_TARGET_TORQUE
          7).1.servoIsEnabledTarget = false ∧
      (writeRegister32bit { envAllOk with writeOk := fun _ => false }
        { initCtrl with modbusOk := true } REG_TARGET_TORQUE
          7).1.servoIsEnabledActual = false ∧
      (writeRegister32bit { envAllOk with writeOk := fun _ => false }
        { initCtrl with modbusOk := true } REG_TARGET_TORQUE
          7).1.modbusOk = false ∧
      (writeRegister32bit { envAllOk with writeOk := fun _ => false }
        { initCtrl with modbusOk := true } REG_TARGET_TORQUE
          7).1.modbusConsecutiveErrors = MAX_MODBUS_ERRORS) :=
  ⟨Or.inl rfl, rfl,
    write_failure_failsafe { envAllOk with writeOk := fun _ => false }
      { initCtrl with modbusOk := true } REG_TARGET_TORQUE 7
      (Or.inl rfl) rfl⟩

/-- A healthy-link state in which homing is already in its Start
phase. -/
def ctrlHomingStarted : Ctrl :=
  { initCtrl with modbusOk := true, homingState := HomingState.start }

/-- Counterexample to C5 as stated: a `startHoming` received while
homing is already in progress (state Start) is rejected with the failed
notification, but HomingState does not "remain Idle" — it stays
Start. The rest of the state is indeed unchanged. -/
theorem start_homing_rejected_not_idle_cex :
    (onStartHoming ctrlHomingStarted).2 = false ∧
    (onStartHoming ctrlHomingStarted).1.homingState ≠ HomingState.idle ∧
    (onStartHoming ctrlHomingStarted).1 = ctrlHomingStarted := by
  decide

/-- Claim C5 (amended): a `startHoming` received while any guard fails
(link not Ok, or ObservedEnable true, or HomingState not Idle) is
rejected with the `homingStatus:"failed"` notification and leaves the
whole state unchanged (so HomingState remains Idle whenever it was
Idle); when all guards hold, HomingState becomes Start and nothing else
changes. -/
theorem start_homing_guard_amended (s : Ctrl) :
    (¬(s.modbusOk = true ∧ s.servoIsEnabledActual = false ∧
        s.homingState = HomingState.idle) →
      onStartHoming s = (s, false)) ∧
    (s.modbusOk = true ∧ s.servoIsEnabledActual = false ∧
        s.homingState = HomingState.idle →
      onStartHoming s =
        ({ s with homingState := HomingState.start }, true)) := by
  constructor <;> intro h <;> simp [onStartHoming, h]

/-- A healthy-link state in which the servo is observed enabled. -/
def ctrlObservedOn : Ctrl :=
  { initCtrl with modbusOk := true, servoIsEnabledActual := true }

/-- Witness for C5: rejection while ObservedEnable is true leaves the
state unchanged. -/
theorem start_homing_guard_amended_witness :
    (¬(ctrlObservedOn.modbusOk = true ∧
        ctrlObservedOn.servoIsEnabledActual = false ∧
        ctrlObservedOn.homingState = HomingState.idle)) ∧
    onStartHoming ctrlObservedOn = (ctrlObservedOn, false) :=
  ⟨by decide, (start_homing_guard_amended ctrlObservedOn).1 (by decide)⟩

end CableMachine

namespace CableMachine

/-! Projection simp lemmas: fields untouched by each transport
function. -/

@[simp] theorem writeRegister_fst_homingState (env : TickEnv) (s : Ctrl)
    (reg : Nat) (v : Int) :
    (writeRegister env s reg v).1.homingState = s.homingState :=
  (writeRegister_pres env s reg v).1

@[simp] theorem writeRegister_fst_enableCmdSent (env : TickEnv) (s : Ctrl)
    (reg : Nat) (v : Int) :
    (writeRegister env s reg v).1.enableCmdSent = s.enableCmdSent :=
  (writeRegister_pres env s reg v).2.1

@[simp] theorem writeRegister_fst_torque (env : TickEnv) (s : Ctrl)
    (reg : Nat) (v : Int) :
    (writeRegister env s reg v).1.currentTargetTorque =
      s.currentTargetTorque :=
  (writeRegister_pres env s reg v).2.2.1

@[simp] theorem writeRegister_fst_homingPosition (env : TickEnv) (s : Ctrl)
    (reg : Nat) (v : Int) :
    (writeRegister env s reg v).1.homingPosition = s.homingPosition :=
  (writeRegister_pres env s reg v).2.2.2.1

@[simp] theorem writeRegister_fst_storedHomingPos (env : TickEnv) (s : Ctrl)
    (reg : Nat) (v : Int) :
    (writeRegister env s reg v).1.storedHomingPos = s.storedHomingPos :=
  (writeRegister_pres env s reg v).2.2.2.2.1

@[simp] theorem writeRegister_fst_actualTorque (env : TickEnv) (s : Ctrl)
    (reg : Nat) (v : Int) :
    (writeRegister env s reg v).1.actualTorque = s.actualTorque :=
  (writeRegister_pres env s reg v).2.2.2.2.2.1

@[simp] theorem writeRegister_fst_actualPosition (env : TickEnv) (s : Ctrl)
    (reg : Nat) (v : Int) :
    (writeRegister env s reg v).1.actualPosition = s.actualPosition :=
  (writeRegister_pres env s reg v).2.2.2.2.2.2

@[simp] theorem writeRegister32bit_fst_homingState (env : TickEnv) (s : Ctrl)
    (reg : Nat) (v : Int) :
    (writeRegister32bit env s reg v).1.homingState = s.homingState :=
  (writeRegister32bit_pres env s reg v).1

@[simp] theorem writeRegister32bit_fst_enableCmdSent (env : TickEnv)
    (s : Ctrl) (reg : Nat) (v : Int) :
    (writeRegister32bit env s reg v).1.enableCmdSent = s.enableCmdSent :=
  (writeRegister32bit_pres env s reg v).2.1

@[simp] theorem writeRegister32bit_fst_torque (env : TickEnv) (s : Ctrl)
    (reg : Nat) (v : Int) :
    (writeRegister32bit env s reg v).1.currentTargetTorque =
      s.currentTargetTorque :=
  (writeRegister32bit_pres env s reg v).2.2.1

@[simp] theorem writeRegister32bit_fst_homingPosition (env : TickEnv)
    (s : Ctrl) (reg : Nat) (v : Int) :
    (writeRegister32bit env s reg v).1.homingPosition = s.homingPosition :=
  (writeRegister32bit_pres env s reg v).2.2.2.1

@[simp] theorem writeRegister32bit_fst_storedHomingPos (env : TickEnv)
    (s : Ctrl) (reg : Nat) (v : Int) :
    (writeRegister32bit env s reg v).1.storedHomingPos =
      s.storedHomingPos :=
  (writeRegister32bit_pres env s reg v).2.2.2.2

@[simp] theorem checkModbusConnection_fst_homingState (env : TickEnv)
    (s : Ctrl) :
    (checkModbusConnection env s).1.homingState = s.homingState := by
  simp only [checkModbusConnection]; split <;> rfl

@[simp] theorem checkModbusConnection_fst_enableCmdSent (env : TickEnv)
    (s : Ctrl) :
    (checkModbusConnection env s).1.enableCmdSent = s.enableCmdSent := by
  simp only [checkModbusConnection]; split <;> rfl

@[simp] theorem checkModbusConnection_fst_torque (env : TickEnv) (s : Ctrl) :
    (checkModbusConnection env s).1.currentTargetTorque =
      s.currentTargetTorque := by
  simp only [checkModbusConnection]; split <;> rfl

@[simp] theorem checkModbusConnection_fst_homingPosition (env : TickEnv)
    (s : Ctrl) :
    (checkModbusConnection env s).1.homingPosition = s.homingPosition := by
  simp only [checkModbusConnection]; split <;> rfl

@[simp] theorem checkModbusConnection_fst_storedHomingPos (env : TickEnv)
    (s : Ctrl) :
    (checkModbusConnection env s).1.storedHomingPos = s.storedHomingPos := by
  simp only [checkModbusConnection]; split <;> rfl

@[simp] theorem checkModbusConnection_fst_events (env : TickEnv) (s : Ctrl) :
    (checkModbusConnection env s).1.events = s.events := by
  simp only [checkModbusConnection]; split <;> rfl

@[simp] theorem checkModbusConnection_fst_wIdx (env : TickEnv) (s : Ctrl) :
    (checkModbusConnection env s).1.wIdx = s.wIdx := by
  simp only [checkModbusConnection]; split <;> rfl

@[simp] theorem checkModbusConnection_fst_actualTorque (env : TickEnv)
    (s : Ctrl) :
    (checkModbusConnection env s).1.actualTorque = s.actualTorque := by
  simp only [checkModbusConnection]; split <;> rfl

@[simp] theorem checkModbusConnection_fst_actualPosition (env : TickEnv)
    (s : Ctrl) :
    (checkModbusConnection env s).1.actualPosition = s.actualPosition := by
  simp only [checkModbusConnection]; split <;> rfl

@[simp] theorem disableServoModbus_fst_homingState (env : TickEnv)
    (s : Ctrl) :
    (disableServoModbus env s).1.homingState = s.homingState :=
  (disableServoModbus_pres env s).1

@[simp] theorem disableServoModbus_fst_enableCmdSent (env : TickEnv)
    (s : Ctrl) :
    (disableServoModbus env s).1.enableCmdSent = s.enableCmdSent :=
  (disableServoModbus_pres env s).2.1

@[simp] theorem disableServoModbus_fst_torque (env : TickEnv) (s : Ctrl) :
    (disableServoModbus env s).1.currentTargetTorque = 0 :=
  (disableServoModbus_pres env s).2.2.1

@[simp] theorem disableServoModbus_fst_homingPosition (env : TickEnv)
    (s : Ctrl) :
    (disableServoModbus env s).1.homingPosition = s.homingPosition :=
  (disableServoModbus_pres env s).2.2.2.1

@[simp] theorem disableServoModbus_fst_storedHomingPos (env : TickEnv)
    (s : Ctrl) :
    (disableServoModbus env s).1.storedHomingPos = s.storedHomingPos :=
  (disableServoModbus_pres env s).2.2.2.2

theorem readServoData_pres (c : ReadCycle) (s : Ctrl) :
    (readServoData c s).1.events = s.events ∧
    (readServoData c s).1.wIdx = s.wIdx ∧
    (readServoData c s).1.homingState = s.homingState ∧
    (readServoData c s).1.enableCmdSent = s.enableCmdSent ∧
    (readServoData c s).1.currentTargetTorque = s.currentTargetTorque ∧
    (readServoData c s).1.homingPosition = s.homingPosition ∧
    (readServoData c s).1.storedHomingPos = s.storedHomingPos := by
  simp only [readServoData, applyReads]
  split
  · exact ⟨rfl, rfl, rfl, rfl, rfl, rfl, rfl⟩
  · split
    · split
      · exact ⟨rfl, rfl, rfl, rfl, rfl, rfl, rfl⟩
      · exact ⟨rfl, rfl, rfl, rfl, rfl, rfl, rfl⟩
    · exact ⟨rfl, rfl, rfl, rfl, rfl, rfl, rfl⟩

@[simp] theorem readServoData_fst_events (c : ReadCycle) (s : Ctrl) :
    (readServoData c s).1.events = s.events :=
  (readServoData_pres c s).1

@[simp] theorem readServoData_fst_wIdx (c : ReadCycle) (s : Ctrl) :
    (readServoData c s).1.wIdx = s.wIdx :=
  (readServoData_pres c s).2.1

@[simp] theorem readServoData_fst_homingState (c : ReadCycle) (s : Ctrl) :
    (readServoData c s).1.homingState = s.homingState :=
  (readServoData_pres c s).2.2.1

@[simp] theorem readServoData_fst_enableCmdSent (c : ReadCycle) (s : Ctrl) :
    (readServoData c s).1.enableCmdSent = s.enableCmdSent :=
  (readServoData_pres c s).2.2.2.1

@[simp] theorem readServoData_fst_torque (c : ReadCycle) (s : Ctrl) :
    (readServoData c s).1.currentTargetTorque = s.currentTargetTorque :=
  (readServoData_pres c s).2.2.2.2.1

@[simp] theorem readServoData_fst_homingPosition (c : ReadCycle) (s : Ctrl) :
    (readServoData c s).1.homingPosition = s.homingPosition :=
  (readServoData_pres c s).2.2.2.2.2.1

@[simp] theorem readServoData_fst_storedHomingPos (c : ReadCycle)
    (s : Ctrl) :
    (readServoData c s).1.storedHomingPos = s.storedHomingPos :=
  (readServoData_pres c s).2.2.2.2.2.2

end CableMachine

namespace CableMachine

theorem writeRegister_guard_skip (env : TickEnv) (s : Ctrl) (reg : Nat)
    (v : Int) (hm : s.modbusOk = false) (hg : env.afterGrace = true) :
    writeRegister env s reg v = (s, false) := by
  simp [writeRegister, hm, hg]

theorem writeRegister_events_shape (env : TickEnv) (s : Ctrl) (reg : Nat)
    (v : Int) :
    (writeRegister env s reg v).1.events = s.events ∨
    (writeRegister env s reg v).1.events =
      s.events ++ [BusWrite.single reg v] := by
  rcases writeRegister_cases env s reg v with ⟨he, -, -⟩ | ⟨-, he⟩ | ⟨-, he⟩ <;>
    rw [he] <;> simp

theorem writeRegister32bit_events_shape (env : TickEnv) (s : Ctrl)
    (reg : Nat) (v : Int) :
    (writeRegister32bit env s reg v).1.events = s.events ∨
    (writeRegister32bit env s reg v).1.events =
      s.events ++ [BusWrite.dual reg (lowWord v) (highWord v)] := by
  rcases writeRegister32bit_cases env s reg v with
    ⟨he, -, -⟩ | ⟨-, he⟩ | ⟨-, he⟩ <;> rw [he] <;> simp

theorem disableServoModbus_fst_events (env : TickEnv) (s : Ctrl) :
    (disableServoModbus env s).1.events =
      (writeRegister env (writeRegister env s REG_MODBUS_SERVO_ON 0).1
        REG_TARGET_TORQUE 0).1.events := by
  simp only [disableServoModbus]; split <;> rfl

theorem disableServoModbus_events (env : TickEnv) (s : Ctrl) :
    (s.modbusOk = false ∧ env.afterGrace = true ∧
      (disableServoModbus env s).1.events = s.events) ∨
    (∃ l, (disableServoModbus env s).1.events =
        s.events ++ BusWrite.single REG_MODBUS_SERVO_ON 0 :: l ∧
      ∀ e ∈ l, e = BusWrite.single REG_TARGET_TORQUE 0) := by
  have hE := disableServoModbus_fst_events env s
  rcases writeRegister_cases env s REG_MODBUS_SERVO_ON 0 with
    ⟨he1, hm, hg⟩ | ⟨-, he1⟩ | ⟨-, he1⟩
  · left
    refine ⟨hm, hg, ?_⟩
    rw [hE, he1]
    rw [writeRegister_guard_skip env s REG_TARGET_TORQUE 0 hm hg]
  · right
    have h1 : (writeRegister env s REG_MODBUS_SERVO_ON 0).1.events =
        s.events ++ [BusWrite.single REG_MODBUS_SERVO_ON 0] := by rw [he1]
    rcases writeRegister_events_shape env
        (writeRegister env s REG_MODBUS_SERVO_ON 0).1 REG_TARGET_TORQUE 0 with
      h2 | h2
    · exact ⟨[], by rw [hE, h2, h1], by simp⟩
    · exact ⟨[BusWrite.single REG_TARGET_TORQUE 0],
        by rw [hE, h2, h1]; simp, by simp⟩
  · right
    have h1 : (writeRegister env s REG_MODBUS_SERVO_ON 0).1.events =
        s.events ++ [BusWrite.single REG_MODBUS_SERVO_ON 0] := by rw [he1]
    rcases writeRegister_events_shape env
        (writeRegister env s REG_MODBUS_SERVO_ON 0).1 REG_TARGET_TORQUE 0 with
      h2 | h2
    · exact ⟨[], by rw [hE, h2, h1], by simp⟩
    · exact ⟨[BusWrite.single REG_TARGET_TORQUE 0],
        by rw [hE, h2, h1]; simp, by simp⟩

end CableMachine

namespace CableMachine

/-- A mid-homing state with the link already Failed (and the 5 s boot
grace period over in the environments it is used with). -/
def ctrlEStopLinkDown : Ctrl :=
  { initCtrl with modbusOk := false, homingState := HomingState.movingSlow, servoIsEnabledTarget := true, currentTargetTorque := 300 }

/-- Counterexample to C1 as stated: e-stop with LinkState Failed (after
the 5-second startup grace) performs the state resets but never places
a disable command on the bus — `writeRegister` returns early on
`!modbusOk && millis() > 5000`, so the event trace stays empty. -/
theorem estop_no_disable_write_cex :
    (eStopCmd envAllOk ctrlEStopLinkDown).events = [] ∧
    (eStopCmd envAllOk ctrlEStopLinkDown).servoIsEnabledTarget = false ∧
    (eStopCmd envAllOk ctrlEStopLinkDown).currentTargetTorque = 0 ∧
    (eStopCmd envAllOk ctrlEStopLinkDown).homingState =
      HomingState.idle := by
  decide

/-- Claim C1 (amended): processing an eStop command from any state sets
DesiredEnable false, TorqueSetpoint 0 and HomingState Idle in the same
step without running the homing Done/abort rollback (no control-mode or
soft-limit writes are issued), and issues a disable command to the
drive whenever the link is Ok or the 5-second startup grace period has
not elapsed; with the link Failed after the grace period the transport
guard suppresses the bus write while the state resets still happen. -/
theorem estop_amended (env : TickEnv) (s : Ctrl) :
    (eStopCmd env s).servoIsEnabledTarget = false ∧
    (eStopCmd env s).currentTargetTorque = 0 ∧
    (eStopCmd env s).homingState = HomingState.idle ∧
    ((s.modbusOk = true ∨ env.afterGrace = false) →
      ∃ l, (eStopCmd env s).events =
        s.events ++ BusWrite.single REG_MODBUS_SERVO_ON 0 :: l) ∧
    (∀ e ∈ (eStopCmd env s).events,
      e ∈ s.events ∨ e = BusWrite.single REG_MODBUS_SERVO_ON 0 ∨
        e = BusWrite.single REG_TARGET_TORQUE 0) := by
  unfold eStopCmd
  refine ⟨disableServoModbus_target_false env _ rfl,
    disableServoModbus_fst_torque env _,
    by rw [disableServoModbus_fst_homingState], ?_, ?_⟩
  · intro hl
    rcases disableServoModbus_events env
        ({ s with servoIsEnabledTarget := false, currentTargetTorque := 0, homingState := HomingState.idle } : Ctrl) with
      ⟨hm, hg, -⟩ | ⟨l, hev, -⟩
    · rcases hl with h | h
      · exact absurd hm (by simp [h])
      · exact absurd hg (by simp [h])
    · exact ⟨l, hev⟩
  · intro e he
    rcases disableServoModbus_events env
        ({ s with servoIsEnabledTarget := false, currentTargetTorque := 0, homingState := HomingState.idle } : Ctrl) with
      ⟨-, -, hev⟩ | ⟨l, hev, hl⟩
    · rw [hev] at he
      exact Or.inl he
    · rw [hev] at he
      rcases List.mem_append.mp he with h | h
      · exact Or.inl h
      · rcases List.mem_cons.mp h with h | h
        · exact Or.inr (Or.inl h)
        · exact Or.inr (Or.inr (hl e h))

/-- Witness for C1: from a healthy mid-homing state the e-stop resets
everything and the first bus write is the disable command. -/
theorem estop_amended_witness :
    (eStopCmd envAllOk ctrlHomingStarted).servoIsEnabledTarget = false ∧
    (eStopCmd envAllOk ctrlHomingStarted).currentTargetTorque = 0 ∧
    (eStopCmd envAllOk ctrlHomingStarted).homingState = HomingState.idle ∧
    (∃ l, (eStopCmd envAllOk ctrlHomingStarted).events =
      ctrlHomingStarted.events ++
        BusWrite.single REG_MODBUS_SERVO_ON 0 :: l) :=
  ⟨(estop_amended envAllOk ctrlHomingStarted).1,
   (estop_amended envAllOk ctrlHomingStarted).2.1,
   (estop_amended envAllOk ctrlHomingStarted).2.2.1,
   (estop_amended envAllOk ctrlHomingStarted).2.2.2.1 (Or.inl rfl)⟩

end CableMachine

namespace CableMachine

theorem setupApp_homingPosition (env : TickEnv) (stored : Int) (s : Ctrl) :
    (setupApp env stored s).homingPosition = 999999 := by
  simp only [setupApp]
  split <;> simp

theorem homingStep_done_persists (env : TickEnv) (s : Ctrl)
    (hm : s.modbusOk = true) (hd : s.homingState = HomingState.done) :
    (homingStep env s).storedHomingPos = s.homingPosition ∧
    (homingStep env s).homingState = HomingState.idle := by
  have hni : ¬ s.homingState = HomingState.idle := by simp [hd]
  simp only [homingStep, hm, if_neg hni, Bool.not_true, Bool.false_and,
    ite_false, if_false]
  split <;> simp_all

/-- The state in which a completed homing run is about to execute its
Done sequence with the captured position 48213. -/
def ctrlDone48213 : Ctrl :=
  { initCtrl with modbusOk := true, homingState := HomingState.done, homingPosition := 48213 }

/-- Counterexample to C9 as stated: booting with 48213 persisted, the
startup path never reads the stored value back — it hardcodes 999999
(main.cpp line 813; the preferences load is commented out on lines
816-819) and writes that placeholder, not the stored value, as the
soft limit. -/
theorem startup_ignores_stored_position_cex :
    (setupApp envAllOk 48213 initCtrl).homingPosition = 999999 ∧
    BusWrite.dual REG_SOFT_LIMIT_NEG (lowWord 48213) (highWord 48213) ∉
      (setupApp envAllOk 48213 initCtrl).events ∧
    BusWrite.dual REG_SOFT_LIMIT_NEG (lowWord 999999) (highWord 999999) ∈
      (setupApp envAllOk 48213 initCtrl).events := by
  decide

/-- Claim C9 (amended): a completed homing run does persist the
captured position to non-volatile storage, but a subsequent power-up
does not use it — `setupApp` unconditionally sets the homing position
to the placeholder 999999 and applies that as the startup soft
limit. -/
theorem homing_persist_amended :
    (∀ env stored s, (setupApp env stored s).homingPosition = 999999) ∧
    (∀ env s, s.modbusOk = true → s.homingState = HomingState.done →
      (homingStep env s).storedHomingPos = s.homingPosition ∧
      (homingStep env s).homingState = HomingState.idle) :=
  ⟨setupApp_homingPosition, fun env s hm hd =>
    homingStep_done_persists env s hm hd⟩

/-- Witness for C9: the Done sequence persists 48213 while a boot with
48213 stored still configures 999999. -/
theorem homing_persist_amended_witness :
    (setupApp envAllOk 48213 initCtrl).homingPosition = 999999 ∧
    (homingStep envAllOk ctrlDone48213).storedHomingPos = 48213 ∧
    (homingStep envAllOk ctrlDone48213).homingState = HomingState.idle :=
  ⟨homing_persist_amended.1 envAllOk 48213 initCtrl,
   (homing_persist_amended.2 envAllOk ctrlDone48213 rfl rfl).1,
   (homing_persist_amended.2 envAllOk ctrlDone48213 rfl rfl).2⟩

end CableMachine

namespace CableMachine

theorem readServoData_fail_lt (c : ReadCycle) (s : Ctrl)
    (hm : s.modbusOk = true) (hc : c.allOk = false)
    (hlt : s.modbusConsecutiveErrors + 1 < MAX_MODBUS_ERRORS) :
    (readServoData c s).1.modbusOk = true ∧
    (readServoData c s).1.modbusConsecutiveErrors =
      s.modbusConsecutiveErrors + 1 ∧
    (readServoData c s).1.servoIsEnabledTarget = s.servoIsEnabledTarget ∧
    (readServoData c s).1.servoIsEnabledActual = s.servoIsEnabledActual := by
  simp only [readServoData]
  split
  · simp_all
  · split
    · split
      · exfalso
        simp only [applyReads] at *
        omega
      · simp [applyReads, hm]
    · simp_all

theorem readServoData_fail_ge (c : ReadCycle) (s : Ctrl)
    (hm : s.modbusOk = true) (hc : c.allOk = false)
    (hge : MAX_MODBUS_ERRORS ≤ s.modbusConsecutiveErrors + 1) :
    (readServoData c s).1.modbusOk = false ∧
    (readServoData c s).1.servoIsEnabledTarget = false ∧
    (readServoData c s).1.servoIsEnabledActual = false ∧
    (readServoData c s).1.actualServoStatus = 0 ∧
    (readServoData c s).1.modbusConsecutiveErrors =
      s.modbusConsecutiveErrors + 1 := by
  simp only [readServoData]
  split
  · simp_all
  · split
    · split
      · simp [applyReads]
      · exfalso
        simp only [applyReads] at *
        omega
    · simp_all

/-- A running, loaded state: link Ok, servo Running, a torque setpoint
of 500 in force, no prior consecutive errors. -/
def ctrlLoaded : Ctrl :=
  { initCtrl with modbusOk := true, servoIsEnabledTarget := true, servoIsEnabledActual := true, actualServoStatus := 2, currentTargetTorque := 500 }

/-- A telemetry cycle whose very first read (servo status) fails and
whose remaining reads succeed, so the cycle as a whole fails. -/
def cycleFail : ReadCycle :=
  { statusOk := false, statusVal := 0, diOk := true, diVal := 0, speedOk := true, speedVal := 0, torqueOk := true, torqueVal := 0, vbusOk := true, vbusVal := 0, curOk := true, curVal := 0, posOk := true, posLow := 0, posHigh := 0, igbtOk := true, igbtVal := 0, motorOk := true, motorVal := 0 }

/-- Counterexample to C2 as stated: after exactly five consecutive
failing telemetry cycles from a clean loaded state, the link is Failed,
enables are cleared and the status is NotReady — but the torque
setpoint is NOT forced to 0: `readServoData` never touches
`currentTargetTorque`, which keeps its prior value 500. -/
theorem telemetry_threshold_torque_cex :
    ((readServoData cycleFail (readServoData cycleFail (readServoData
        cycleFail (readServoData cycleFail (readServoData cycleFail
          ctrlLoaded).1).1).1).1).1.modbusOk = false) ∧
    ((readServoData cycleFail (readServoData cycleFail (readServoData
        cycleFail (readServoData cycleFail (readServoData cycleFail
          ctrlLoaded).1).1).1).1).1.currentTargetTorque = 500) ∧
    ¬((readServoData cycleFail (readServoData cycleFail (readServoData
        cycleFail (readServoData cycleFail (readServoData cycleFail
          ctrlLoaded).1).1).1).1).1.currentTargetTorque = 0) := by
  decide

/-- Claim C2 (amended): in a run of exactly `MAX_MODBUS_ERRORS` (5)
consecutive failing telemetry cycles starting with the link Ok and the
error counter at 0, the first four failures leave the link Ok, and the
threshold-crossing fifth failure sets LinkState Failed, clears
DesiredEnable and ObservedEnable, forces DriveStatus to NotReady (0)
and leaves the error counter at the threshold — while the torque
setpoint retains its previous value (the telemetry-failure path does
not force it to 0). -/
theorem telemetry_threshold_amended (s : Ctrl)
    (c1 c2 c3 c4 c5 : ReadCycle) (hm : s.modbusOk = true)
    (he : s.modbusConsecutiveErrors = 0) (h1 : c1.allOk = false)
    (h2 : c2.allOk = false) (h3 : c3.allOk = false) (h4 : c4.allOk = false)
    (h5 : c5.allOk = false) :
    (readServoData c4 (readServoData c3 (readServoData c2 (readServoData
        c1 s).1).1).1).1.modbusOk = true ∧
    (readServoData c5 (readServoData c4 (readServoData c3 (readServoData
        c2 (readServoData c1 s).1).1).1).1).1.modbusOk = false ∧
    (readServoData c5 (readServoData c4 (readServoData c3 (readServoData
        c2 (readServoData c1 s).1).1).1).1).1.servoIsEnabledTarget =
      false ∧
    (readServoData c5 (readServoData c4 (readServoData c3 (readServoData
        c2 (readServoData c1 s).1).1).1).1).1.servoIsEnabledActual =
      false ∧
    (readServoData c5 (readServoData c4 (readServoData c3 (readServoData
        c2 (readServoData c1 s).1).1).1).1).1.actualServoStatus = 0 ∧
    (readServoData c5 (readServoData c4 (readServoData c3 (readServoData
        c2 (readServoData c1 s).1).1).1).1).1.modbusConsecutiveErrors =
      MAX_MODBUS_ERRORS ∧
    (readServoData c5 (readServoData c4 (readServoData c3 (readServoData
        c2 (readServoData c1 s).1).1).1).1).1.currentTargetTorque =
      s.currentTargetTorque := by
  obtain ⟨m1, e1, -, -⟩ := readServoData_fail_lt c1 s hm h1
    (by rw [he]; simp [MAX_MODBUS_ERRORS])
  obtain ⟨m2, e2, -, -⟩ := readServoData_fail_lt c2 _ m1 h2
    (by rw [e1, he]; simp [MAX_MODBUS_ERRORS])
  obtain ⟨m3, e3, -, -⟩ := readServoData_fail_lt c3 _ m2 h3
    (by rw [e2, e1, he]; simp [MAX_MODBUS_ERRORS])
  obtain ⟨m4, e4, -, -⟩ := readServoData_fail_lt c4 _ m3 h4
    (by rw [e3, e2, e1, he]; simp [MAX_MODBUS_ERRORS])
  obtain ⟨m5, t5, a5, st5, e5⟩ := readServoData_fail_ge c5 _ m4 h5
    (by rw [e4, e3, e2, e1, he]; simp [MAX_MODBUS_ERRORS])
  refine ⟨m4, m5, t5, a5, st5, ?_, by simp⟩
  rw [e5, e4, e3, e2, e1, he]
  rfl

/-- Witness for C2 (amended) at the concrete loaded state and failing
cycle. -/
theorem telemetry_threshold_amended_witness :
    ctrlLoaded.modbusOk = true ∧
    ctrlLoaded.modbusConsecutiveErrors = 0 ∧
    cycleFail.allOk = false ∧
    ((readServoData cycleFail (readServoData cycleFail (readServoData
        cycleFail (readServoData cycleFail (readServoData cycleFail
          ctrlLoaded).1).1).1).1).1.modbusOk = false ∧
      (readServoData cycleFail (readServoData cycleFail (readServoData
        cycleFail (readServoData cycleFail (readServoData cycleFail
          ctrlLoaded).1).1).1).1).1.currentTargetTorque =
        ctrlLoaded.currentTargetTorque) :=
  ⟨rfl, rfl, rfl,
    (telemetry_threshold_amended ctrlLoaded cycleFail cycleFail cycleFail
      cycleFail cycleFail rfl rfl rfl rfl rfl rfl rfl).2.1,
    (telemetry_threshold_amended ctrlLoaded cycleFail cycleFail cycleFail
      cycleFail cycleFail rfl rfl rfl rfl rfl rfl rfl).2.2.2.2.2.2⟩

end CableMachine

namespace CableMachine

theorem writeRegister_all_ok (env : TickEnv) (s : Ctrl) (reg : Nat)
    (v : Int) (hm : s.modbusOk = true) (hAll : ∀ n, env.writeOk n = true) :
    writeRegister env s reg v =
      ({ s with wIdx := s.wIdx + 1,
                events := s.events ++ [BusWrite.single reg v],
                modbusConsecutiveErrors := 0 }, true) := by
  simp [writeRegister, hm, hAll]

theorem disableServoModbus_all_ok (env : TickEnv) (s : Ctrl)
    (hm : s.modbusOk = true) (hAll : ∀ n, env.writeOk n = true) :
    disableServoModbus env s =
      ({ s with wIdx := s.wIdx + 2,
                events := s.events ++ [BusWrite.single REG_MODBUS_SERVO_ON 0,
                  BusWrite.single REG_TARGET_TORQUE 0],
                modbusConsecutiveErrors := 0,
                currentTargetTorque := 0 }, true) := by
  simp [disableServoModbus, writeRegister_all_ok, hm, hAll]

/-- The waiting-for-Running state with a drive fault reported. -/
def ctrlWaitFault : Ctrl :=
  { initCtrl with modbusOk := true, homingState := HomingState.waitForRunning, actualServoStatus := 3 }

/-- The waiting-for-Running state with the drive still Ready. -/
def ctrlWaitReady : Ctrl :=
  { initCtrl with modbusOk := true, homingState := HomingState.waitForRunning, actualServoStatus := 1 }

/-- An environment in which the homing start timeout has expired. -/
def envTimeout : TickEnv :=
  { envAllOk with startTimeout := true }

/-- Counterexample to C6 as stated: the drive-fault abort (a non-E-stop
abort cause) returns to Idle after restoring only the soft-limit-enable
register — no control-mode restore write (0x0000, 2) is issued, so the
drive is left in speed mode. -/
theorem fault_abort_no_mode_restore_cex :
    (homingStep envAllOk ctrlWaitFault).homingState = HomingState.idle ∧
    (homingStep envAllOk ctrlWaitFault).events =
      [BusWrite.single REG_SOFT_LIMIT_ENABLE 1] ∧
    BusWrite.single REG_CONTROL_MODE 2 ∉
      (homingStep envAllOk ctrlWaitFault).events := by
  decide

/-- Claim C6 (amended): with the transport accepting all writes, only
the start-timeout abort restores both the control-mode register and the
soft-limit-enable register before HomingState returns to Idle; the
drive-fault abort and the unexpected-stop abort during MovingSlow
restore only the soft-limit-enable register (the control mode is left
as homing set it), and the link-loss abort issues no restore writes at
all. -/
theorem homing_abort_restore_amended :
    (∀ env s, s.homingState = HomingState.waitForRunning →
      s.modbusOk = true → s.servoIsEnabledActual = false →
      s.actualServoStatus ≠ 3 → env.startTimeout = true →
      (∀ n, env.writeOk n = true) →
      (homingStep env s).homingState = HomingState.idle ∧
      (homingStep env s).events = s.events ++
        [BusWrite.single REG_MODBUS_SERVO_ON 0,
         BusWrite.single REG_TARGET_TORQUE 0,
         BusWrite.single REG_CONTROL_MODE 2,
         BusWrite.single REG_SOFT_LIMIT_ENABLE 1]) ∧
    (∀ env s, s.homingState = HomingState.waitForRunning →
      s.modbusOk = true → s.servoIsEnabledActual = false →
      s.actualServoStatus = 3 → (∀ n, env.writeOk n = true) →
      (homingStep env s).homingState = HomingState.idle ∧
      (homingStep env s).events = s.events ++
        [BusWrite.single REG_SOFT_LIMIT_ENABLE 1]) ∧
    (∀ env s, s.homingState = HomingState.movingSlow →
      s.modbusOk = true → s.servoIsEnabledActual = false →
      (∀ n, env.writeOk n = true) →
      (homingStep env s).homingState = HomingState.idle ∧
      (homingStep env s).events = s.events ++
        [BusWrite.single REG_SOFT_LIMIT_ENABLE 1]) ∧
    (∀ env s, s.homingState ≠ HomingState.idle → s.modbusOk = false →
      (homingStep env s).homingState = HomingState.idle ∧
      (homingStep env s).events = s.events) := by
  refine ⟨?_, ?_, ?_, ?_⟩
  · intro env s hw hm ha hst ht hAll
    have hni : ¬ s.homingState = HomingState.idle := by simp [hw]
    simp only [homingStep, if_neg hni, hm, Bool.not_true, Bool.false_and]
    split <;> simp_all [disableServoModbus_all_ok, writeRegister_all_ok]
  · intro env s hw hm ha hst hAll
    have hni : ¬ s.homingState = HomingState.idle := by simp [hw]
    simp only [homingStep, if_neg hni, hm, Bool.not_true, Bool.false_and]
    split <;> simp_all [writeRegister_all_ok]
  · intro env s hw hm ha hAll
    have hni : ¬ s.homingState = HomingState.idle := by simp [hw]
    simp only [homingStep, if_neg hni, hm, Bool.not_true, Bool.false_and]
    split <;> simp_all [writeRegister_all_ok]
  · intro env s hni hm
    simp only [homingStep, if_neg hni, hm, Bool.not_false]
    constructor <;> simp

/-- Witness for C6: the concrete start-timeout abort issues disable,
zero-torque, control-mode and soft-limit-enable writes, and the
concrete link-loss abort issues none. -/
theorem homing_abort_restore_amended_witness :
    ((homingStep envTimeout ctrlWaitReady).homingState =
        HomingState.idle ∧
      (homingStep envTimeout ctrlWaitReady).events =
        ctrlWaitReady.events ++
          [BusWrite.single REG_MODBUS_SERVO_ON 0,
           BusWrite.single REG_TARGET_TORQUE 0,
           BusWrite.single REG_CONTROL_MODE 2,
           BusWrite.single REG_SOFT_LIMIT_ENABLE 1]) ∧
    ((homingStep envAllOk ctrlEStopLinkDown).homingState =
        HomingState.idle ∧
      (homingStep envAllOk ctrlEStopLinkDown).events =
        ctrlEStopLinkDown.events) :=
  ⟨homing_abort_restore_amended.1 envTimeout ctrlWaitReady rfl rfl rfl
      (by decide) rfl (fun _ => rfl),
    homing_abort_restore_amended.2.2.2 envAllOk ctrlEStopLinkDown
      (by decide) rfl⟩

end CableMachine

namespace CableMachine

theorem readServoData_modbusOk_false (c : ReadCycle) (s : Ctrl)
    (hm : s.modbusOk = false) (hc : c.allOk = false) :
    (readServoData c s).1.modbusOk = false := by
  simp only [readServoData]
  split
  · exact hm
  · split
    · split
      · rfl
      · simp [applyReads, hm]
    · simp_all

theorem checkStep_modbusOk_false (env : TickEnv) (s : Ctrl)
    (hm : s.modbusOk = false)
    (hp : ¬(env.checkDue = true ∧ env.probeOk = true)) :
    (checkStep env s).modbusOk = false := by
  by_cases hd : env.checkDue = true
  · have hpo : env.probeOk = false := by
      have : ¬ env.probeOk = true := fun hb => hp ⟨hd, hb⟩
      simpa using this
    simp [checkStep, checkModbusConnection, hm, hd, hpo]
  · have hd2 : env.checkDue = false := by simpa using hd
    simp [checkStep, hm, hd2]

theorem readStep_modbusOk_false (env : TickEnv) (s : Ctrl)
    (hm : s.modbusOk = false)
    (hr : ¬(env.readDue = true ∧ env.cycle.allOk = true)) :
    (readStep env s).modbusOk = false := by
  by_cases hd : env.readDue = true
  · have hc : env.cycle.allOk = false := by
      have : ¬ env.cycle.allOk = true := fun hb => hr ⟨hd, hb⟩
      simpa using this
    simp only [readStep]
    split
    · exact readServoData_modbusOk_false env.cycle s hm hc
    · exact hm
  · have hd2 : env.readDue = false := by simpa using hd
    simp [readStep, hd2, hm]

theorem homingStep_modbusOk_false (env : TickEnv) (s : Ctrl)
    (hm : s.modbusOk = false) :
    (homingStep env s).modbusOk = false := by
  by_cases hi : s.homingState = HomingState.idle
  · simp [homingStep, hi, hm]
  · simp [homingStep, hi, hm]

theorem servoStep_modbusOk_false (env : TickEnv) (s : Ctrl)
    (hm : s.modbusOk = false) :
    (servoStep env s).modbusOk = false := by
  by_cases hi : s.homingState = HomingState.idle
  · simp only [servoStep]
    rw [if_pos hi, if_neg (by simp [hm])]
    split <;> simp [hm]
  · simp [servoStep, hi, hm]

/-- Claim C10: a successful register write resets the consecutive-error
counter to 0 but leaves the link state exactly as it was (it never
performs the Failed-to-Ok transition); across a whole tick, the link
can go from Failed to Ok only when the tick ran a successful
connectivity probe or a telemetry cycle in which every read
succeeded. -/
theorem link_recovery_only_via_probe_or_read :
    (∀ env s reg v, (writeRegister env s reg v).2 = true →
      (writeRegister env s reg v).1.modbusConsecutiveErrors = 0 ∧
      (writeRegister env s reg v).1.modbusOk = s.modbusOk) ∧
    (∀ env s reg v, (writeRegister32bit env s reg v).2 = true →
      (writeRegister32bit env s reg v).1.modbusConsecutiveErrors = 0 ∧
      (writeRegister32bit env s reg v).1.modbusOk = s.modbusOk) ∧
    (∀ env s, s.modbusOk = false → (tick env s).modbusOk = true →
      (env.checkDue = true ∧ env.probeOk = true) ∨
      (env.readDue = true ∧ env.cycle.allOk = true)) := by
  refine ⟨?_, ?_, ?_⟩
  · intro env s reg v hok
    rcases writeRegister_cases env s reg v with
      ⟨he, -, -⟩ | ⟨-, he⟩ | ⟨-, he⟩ <;> rw [he] at hok ⊢ <;> simp_all
  · intro env s reg v hok
    rcases writeRegister32bit_cases env s reg v with
      ⟨he, -, -⟩ | ⟨-, he⟩ | ⟨-, he⟩ <;> rw [he] at hok ⊢ <;> simp_all
  · intro env s hm htick
    by_cases hp : env.checkDue = true ∧ env.probeOk = true
    · exact Or.inl hp
    · by_cases hr : env.readDue = true ∧ env.cycle.allOk = true
      · exact Or.inr hr
      · exfalso
        have h1 := checkStep_modbusOk_false env s hm hp
        have h2 := readStep_modbusOk_false env (checkStep env s) h1 hr
        have h3 := homingStep_modbusOk_false env
          (readStep env (checkStep env s)) h2
        have h4 := servoStep_modbusOk_false env
          (homingStep env (readStep env (checkStep env s))) h3
        rw [show tick env s = servoStep env (homingStep env (readStep env
          (checkStep env s))) from rfl] at htick
        rw [htick] at h4
        exact Bool.noConfusion h4

/-- Witness for C10: a successful torque write on a Failed link during
the boot grace period resets the counter without reviving the link, and
a tick that revives a Failed link did run its probe successfully. -/
theorem link_recovery_only_via_probe_or_read_witness :
    ((writeRegister { envAllOk with afterGrace := false } initCtrl
        REG_TARGET_TORQUE 0).2 = true ∧
      (writeRegister { envAllOk with afterGrace := false } initCtrl
        REG_TARGET_TORQUE 0).1.modbusConsecutiveErrors = 0 ∧
      (writeRegister { envAllOk with afterGrace := false } initCtrl
        REG_TARGET_TORQUE 0).1.modbusOk = initCtrl.modbusOk) ∧
    (initCtrl.modbusOk = false ∧
      (tick { envAllOk with checkDue := true } initCtrl).modbusOk = true ∧
      ((({ envAllOk with checkDue := true } : TickEnv).checkDue = true ∧
          ({ envAllOk with checkDue := true } : TickEnv).probeOk = true) ∨
        (({ envAllOk with checkDue := true } : TickEnv).readDue = true ∧
          ({ envAllOk with checkDue := true } : TickEnv).cycle.allOk =
            true))) :=
  ⟨⟨rfl,
    (link_recovery_only_via_probe_or_read.1
      { envAllOk with afterGrace := false } initCtrl REG_TARGET_TORQUE 0
      rfl).1,
    (link_recovery_only_via_probe_or_read.1
      { envAllOk with afterGrace := false } initCtrl REG_TARGET_TORQUE 0
      rfl).2⟩,
   rfl, by decide,
   link_recovery_only_via_probe_or_read.2.2
     { envAllOk with checkDue := true } initCtrl rfl (by decide)⟩

end CableMachine

namespace CableMachine

@[simp] theorem checkStep_homingState (env : TickEnv) (s : Ctrl) :
    (checkStep env s).homingState = s.homingState := by
  simp only [checkStep]
  split
  · split <;> simp
  · rfl

@[simp] theorem readStep_homingState (env : TickEnv) (s : Ctrl) :
    (readStep env s).homingState = s.homingState := by
  simp only [readStep]
  split <;> simp

@[simp] theorem tickPre_homingState (env : TickEnv) (s : Ctrl) :
    (tickPre env s).homingState = s.homingState := by
  simp [tickPre]

@[simp] theorem enableServoModbus_fst_homingState (env : TickEnv)
    (s : Ctrl) :
    (enableServoModbus env s).1.homingState = s.homingState := by
  simp [enableServoModbus]

theorem servoStep_homingState (env : TickEnv) (s : Ctrl) :
    (servoStep env s).homingState = s.homingState := by
  simp only [servoStep]
  split
  · split
    · (repeat' split) <;> simp
    · split <;> rfl
  · rfl

theorem homingStep_done_src (env : TickEnv) (s : Ctrl)
    (h : (homingStep env s).homingState = HomingState.done) :
    s.homingState = HomingState.movingSlow ∧
    s.servoIsEnabledActual = true ∧
    abs s.actualTorque > HOMING_TORQUE_THRESHOLD ∧
    s.modbusOk = true := by
  simp only [homingStep] at h
  split at h
  · simp_all
  · split at h
    · simp_all
    · split at h <;> ((repeat' (split at h)) <;> simp_all)

theorem homingStep_moving_src (env : TickEnv) (s : Ctrl)
    (h : (homingStep env s).homingState = HomingState.movingSlow) :
    s.servoIsEnabledActual = true ∧
    (s.homingState = HomingState.movingSlow ∨
      s.homingState = HomingState.waitForRunning) := by
  simp only [homingStep] at h
  split at h
  · simp_all
  · split at h
    · simp_all
    · split at h <;> ((repeat' (split at h)) <;> simp_all)

end CableMachine

namespace CableMachine

theorem applyCmd_moving_src (env : TickEnv) (s : Ctrl) (c : Cmd)
    (h : (applyCmd env s c).homingState = HomingState.movingSlow) :
    s.homingState = HomingState.movingSlow := by
  cases c with
  | setTorque v => exact h
  | enableServo => exact h
  | disableServo => exact h
  | setDI5Func v =>
    simp only [applyCmd] at h
    split at h
    · simpa using h
    · exact h
  | startHoming =>
    simp only [applyCmd, onStartHoming] at h
    split at h
    · simp at h
    · exact h
  | eStop =>
    simp only [applyCmd, eStopCmd] at h
    rw [disableServoModbus_fst_homingState] at h
    simp at h

theorem applyCmds_moving_src (env : TickEnv) (cs : List Cmd) :
    ∀ s : Ctrl, (applyCmds env s cs).homingState = HomingState.movingSlow →
      s.homingState = HomingState.movingSlow := by
  induction cs with
  | nil => intro s h; exact h
  | cons c cs ih => intro s h; exact applyCmd_moving_src env s c (ih _ h)

theorem run_done_src : ∀ (steps : List Step) (s0 : Ctrl),
    (run s0 steps).homingState = HomingState.done →
    (steps = [] ∧ s0.homingState = HomingState.done) ∨
    ∃ j, ∃ hj : j < (midStates s0 steps).length,
      ((midStates s0 steps).get ⟨j, hj⟩).homingState =
        HomingState.movingSlow ∧
      ((midStates s0 steps).get ⟨j, hj⟩).servoIsEnabledActual = true ∧
      abs ((midStates s0 steps).get ⟨j, hj⟩).actualTorque >
        HOMING_TORQUE_THRESHOLD := by
  intro steps
  induction steps with
  | nil => intro s0 h; exact Or.inl ⟨rfl, h⟩
  | cons st rest ih =>
    intro s0 h
    rcases ih (runStep s0 st) h with ⟨hnil, hdone⟩ | ⟨j, hj, hmov, hact, hst⟩
    · have hdone2 : (servoStep st.env (homingStep st.env (tickPre st.env
          (applyCmds st.env s0 st.cmds)))).homingState =
          HomingState.done := hdone
      rw [servoStep_homingState] at hdone2
      obtain ⟨hm, ha, hs, -⟩ := homingStep_done_src _ _ hdone2
      exact Or.inr ⟨0, by simp [midStates], hm, ha, hs⟩
    · exact Or.inr ⟨j + 1,
        by simpa [midStates] using Nat.succ_lt_succ hj, hmov, hact, hst⟩

theorem mid_moving_src : ∀ (steps : List Step) (s0 : Ctrl) (j : Nat)
    (hj : j < (midStates s0 steps).length),
    ((midStates s0 steps).get ⟨j, hj⟩).homingState =
      HomingState.movingSlow →
    s0.homingState = HomingState.movingSlow ∨
    ∃ i, ∃ hi : i < (midStates s0 steps).length, i < j ∧
      ((midStates s0 steps).get ⟨i, hi⟩).servoIsEnabledActual = true := by
  intro steps
  induction steps with
  | nil =>
    intro s0 j hj
    exact absurd hj (by simp [midStates])
  | cons st rest ih =>
    intro s0 j hj h
    cases j with
    | zero =>
      have h0 : (tickPre st.env
          (applyCmds st.env s0 st.cmds)).homingState =
          HomingState.movingSlow := h
      rw [tickPre_homingState] at h0
      exact Or.inl (applyCmds_moving_src st.env st.cmds s0 h0)
    | succ k =>
      have hk : k < (midStates (runStep s0 st) rest).length := by
        simpa [midStates] using hj
      have h2 : ((midStates (runStep s0 st) rest).get
          ⟨k, hk⟩).homingState = HomingState.movingSlow := h
      rcases ih (runStep s0 st) k hk h2 with hbase | ⟨i, hi, hik, hact⟩
      · have hb2 : (servoStep st.env (homingStep st.env (tickPre st.env
            (applyCmds st.env s0 st.cmds)))).homingState =
            HomingState.movingSlow := hbase
        rw [servoStep_homingState] at hb2
        obtain ⟨hact0, -⟩ := homingStep_moving_src _ _ hb2
        exact Or.inr ⟨0, by simp [midStates], Nat.succ_pos k, hact0⟩
      · exact Or.inr ⟨i + 1,
          by simpa [midStates] using Nat.succ_lt_succ hi,
          Nat.succ_lt_succ hik, hact⟩

/-- Claim C4: over any execution (`run`, commands followed by ticks),
homing reaches Done from Idle only through an earlier tick that
observed the servo enabled (ObservedEnable read true at its homing
decision point) followed by a later tick in which, still observed
enabled and in MovingSlow, the torque magnitude exceeded the stall
threshold; there is no other path into Done. -/
theorem homing_done_requires_running_then_stall (s0 : Ctrl)
    (steps : List Step) (h0 : s0.homingState = HomingState.idle)
    (hd : (run s0 steps).homingState = HomingState.done) :
    ∃ i j, ∃ hi : i < (midStates s0 steps).length,
      ∃ hj : j < (midStates s0 steps).length, i < j ∧
      ((midStates s0 steps).get ⟨i, hi⟩).servoIsEnabledActual = true ∧
      ((midStates s0 steps).get ⟨j, hj⟩).homingState =
        HomingState.movingSlow ∧
      ((midStates s0 steps).get ⟨j, hj⟩).servoIsEnabledActual = true ∧
      abs ((midStates s0 steps).get ⟨j, hj⟩).actualTorque >
        HOMING_TORQUE_THRESHOLD := by
  rcases run_done_src steps s0 hd with ⟨-, hcontra⟩ | ⟨j, hj, hmov, hact, hs⟩
  · rw [h0] at hcontra
    exact absurd hcontra (by simp)
  · rcases mid_moving_src steps s0 j hj hmov with hcontra | ⟨i, hi, hij, ha0⟩
    · rw [h0] at hcontra
      exact absurd hcontra (by simp)
    · exact ⟨i, j, hi, hj, hij, ha0, hmov, hact, hs⟩

end CableMachine

namespace CableMachine

/-- A clean boot state with the link Ok and the drive Ready. -/
def ctrlReadyIdle : Ctrl :=
  { initCtrl with modbusOk := true, actualServoStatus := 1 }

/-- A fully successful telemetry cycle reporting status Running (2). -/
def cycleRunning : ReadCycle :=
  { statusOk := true, statusVal := 2, diOk := true, diVal := 0, speedOk := true, speedVal := 0, torqueOk := true, torqueVal := 0, vbusOk := true, vbusVal := 0, curOk := true, curVal := 0, posOk := true, posLow := 0, posHigh := 0, igbtOk := true, igbtVal := 0, motorOk := true, motorVal := 0 }

/-- A fully successful telemetry cycle reporting status Running and a
torque feedback of 250 (above the stall threshold 200). -/
def cycleStall : ReadCycle :=
  { statusOk := true, statusVal := 2, diOk := true, diVal := 0, speedOk := true, speedVal := 0, torqueOk := true, torqueVal := 250, vbusOk := true, vbusVal := 0, curOk := true, curVal := 0, posOk := true, posLow := 0, posHigh := 0, igbtOk := true, igbtVal := 0, motorOk := true, motorVal := 0 }

/-- Environment whose telemetry read reports Running. -/
def envRunning : TickEnv :=
  { envAllOk with readDue := true, cycle := cycleRunning }

/-- Environment whose telemetry read reports Running with stall-level
torque. -/
def envStall : TickEnv :=
  { envAllOk with readDue := true, cycle := cycleStall }

/-- A three-tick execution that completes a homing run: start command,
drive reaches Running, stall detected. -/
def homingRun : List Step :=
  [⟨[Cmd.startHoming], envAllOk⟩, ⟨[], envRunning⟩, ⟨[], envStall⟩]

/-- Witness for C4: the concrete three-tick homing run reaches Done and
the theorem produces the Running-then-stall pair of ticks. -/
theorem homing_done_requires_running_then_stall_witness :
    ctrlReadyIdle.homingState = HomingState.idle ∧
    (run ctrlReadyIdle homingRun).homingState = HomingState.done ∧
    (∃ i j, ∃ hi : i < (midStates ctrlReadyIdle homingRun).length,
      ∃ hj : j < (midStates ctrlReadyIdle homingRun).length, i < j ∧
      ((midStates ctrlReadyIdle homingRun).get
        ⟨i, hi⟩).servoIsEnabledActual = true ∧
      ((midStates ctrlReadyIdle homingRun).get ⟨j, hj⟩).homingState =
        HomingState.movingSlow ∧
      ((midStates ctrlReadyIdle homingRun).get
        ⟨j, hj⟩).servoIsEnabledActual = true ∧
      abs ((midStates ctrlReadyIdle homingRun).get
        ⟨j, hj⟩).actualTorque > HOMING_TORQUE_THRESHOLD) :=
  ⟨rfl, by decide,
    homing_done_requires_running_then_stall ctrlReadyIdle homingRun rfl
      (by decide)⟩

end CableMachine

namespace CableMachine

@[simp] theorem enableCount_set_latch (s : Ctrl) (b : Bool) :
    enableCount { s with enableCmdSent := b } = enableCount s := rfl

theorem enableCount_writeRegister_ne (env : TickEnv) (s : Ctrl) (reg : Nat)
    (v : Int) (h : ¬(reg = REG_MODBUS_SERVO_ON ∧ v = 1)) :
    enableCount (writeRegister env s reg v).1 = enableCount s := by
  rcases writeRegister_cases env s reg v with ⟨he, -, -⟩ | ⟨-, he⟩ | ⟨-, he⟩ <;>
    rw [he] <;>
    simp [enableCount, isEnableWrite, List.countP_append, List.countP_cons, h]

@[simp] theorem enableCount_wr_torque (env : TickEnv) (s : Ctrl) (v : Int) :
    enableCount (writeRegister env s REG_TARGET_TORQUE v).1 = enableCount s :=
  enableCount_writeRegister_ne env s _ v
    (by simp [REG_TARGET_TORQUE, REG_MODBUS_SERVO_ON])

@[simp] theorem enableCount_wr_mode (env : TickEnv) (s : Ctrl) (v : Int) :
    enableCount (writeRegister env s REG_CONTROL_MODE v).1 = enableCount s :=
  enableCount_writeRegister_ne env s _ v
    (by simp [REG_CONTROL_MODE, REG_MODBUS_SERVO_ON])

@[simp] theorem enableCount_wr_speed (env : TickEnv) (s : Ctrl) (v : Int) :
    enableCount (writeRegister env s REG_TARGET_SPEED v).1 = enableCount s :=
  enableCount_writeRegister_ne env s _ v
    (by simp [REG_TARGET_SPEED, REG_MODBUS_SERVO_ON])

@[simp] theorem enableCount_wr_refsrc (env : TickEnv) (s : Ctrl) (v : Int) :
    enableCount (writeRegister env s REG_TORQUE_REF_SRC v).1 =
      enableCount s :=
  enableCount_writeRegister_ne env s _ v
    (by simp [REG_TORQUE_REF_SRC, REG_MODBUS_SERVO_ON])

@[simp] theorem enableCount_wr_limit (env : TickEnv) (s : Ctrl) (v : Int) :
    enableCount (writeRegister env s REG_SOFT_LIMIT_ENABLE v).1 =
      enableCount s :=
  enableCount_writeRegister_ne env s _ v
    (by simp [REG_SOFT_LIMIT_ENABLE, REG_MODBUS_SERVO_ON])

@[simp] theorem enableCount_wr_oocp (env : TickEnv) (s : Ctrl) (v : Int) :
    enableCount (writeRegister env s REG_OUT_OF_CONTROL_PROT v).1 =
      enableCount s :=
  enableCount_writeRegister_ne env s _ v
    (by simp [REG_OUT_OF_CONTROL_PROT, REG_MODBUS_SERVO_ON])

@[simp] theorem enableCount_wr_di5 (env : TickEnv) (s : Ctrl) (v : Int) :
    enableCount (writeRegister env s REG_DI5_FUNCTION v).1 = enableCount s :=
  enableCount_writeRegister_ne env s _ v
    (by simp [REG_DI5_FUNCTION, REG_MODBUS_SERVO_ON])

@[simp] theorem enableCount_wr_servoOff (env : TickEnv) (s : Ctrl) :
    enableCount (writeRegister env s REG_MODBUS_SERVO_ON 0).1 =
      enableCount s :=
  enableCount_writeRegister_ne env s _ 0 (by simp)

@[simp] theorem enableCount_wr32 (env : TickEnv) (s : Ctrl) (reg : Nat)
    (v : Int) :
    enableCount (writeRegister32bit env s reg v).1 = enableCount s := by
  rcases writeRegister32bit_cases env s reg v with
    ⟨he, -, -⟩ | ⟨-, he⟩ | ⟨-, he⟩ <;> rw [he] <;>
    simp [enableCount, isEnableWrite, List.countP_append, List.countP_cons]

@[simp] theorem enableCount_disable (env : TickEnv) (s : Ctrl) :
    enableCount (disableServoModbus env s).1 = enableCount s := by
  have h := disableServoModbus_fst_events env s
  show (disableServoModbus env s).1.events.countP _ = _
  rw [h]
  exact (enableCount_wr_torque env (writeRegister env s
    REG_MODBUS_SERVO_ON 0).1 0).trans (enableCount_wr_servoOff env s)

@[simp] theorem enableCount_check (env : TickEnv) (s : Ctrl) :
    enableCount (checkModbusConnection env s).1 = enableCount s := by
  show (checkModbusConnection env s).1.events.countP _ = _
  rw [checkModbusConnection_fst_events]
  rfl

@[simp] theorem enableCount_read (c : ReadCycle) (s : Ctrl) :
    enableCount (readServoData c s).1 = enableCount s := by
  show (readServoData c s).1.events.countP _ = _
  rw [readServoData_fst_events]
  rfl

theorem enableCount_enable_ok (env : TickEnv) (s : Ctrl)
    (hm : s.modbusOk = true) :
    enableCount (enableServoModbus env s).1 = enableCount s + 1 := by
  show enableCount (writeRegister env s REG_MODBUS_SERVO_ON 1).1 = _
  rcases writeRegister_cases env s REG_MODBUS_SERVO_ON 1 with
    ⟨-, hmf, -⟩ | ⟨-, he⟩ | ⟨-, he⟩
  · exact absurd hmf (by simp [hm])
  · rw [he]
    simp [enableCount, isEnableWrite, List.countP_append, List.countP_cons]
  · rw [he]
    simp [enableCount, isEnableWrite, List.countP_append, List.countP_cons]

theorem enableCount_checkStep (env : TickEnv) (s : Ctrl) :
    enableCount (checkStep env s) = enableCount s := by
  simp only [checkStep]
  split
  · split
    · rw [enableCount_wr_oocp, enableCount_wr_limit, enableCount_wr32,
        enableCount_wr_refsrc, enableCount_wr_mode, enableCount_set_latch,
        enableCount_disable, enableCount_check]
    · rw [enableCount_check]
  · rfl

@[simp] theorem enableCount_readStep (env : TickEnv) (s : Ctrl) :
    enableCount (readStep env s) = enableCount s := by
  simp only [readStep]
  split <;> simp

end CableMachine

namespace CableMachine

/-- The one-shot latch is set and the link is Ok. -/
def latchArmed (s : Ctrl) : Prop :=
  s.enableCmdSent = true ∧ s.modbusOk = true

/-- The link has just failed (status forced away from Ready). -/
def linkDowned (s : Ctrl) : Prop :=
  s.modbusOk = false ∧ s.actualServoStatus ≠ 1

theorem entryOk_dest (s : Ctrl) (h : entryOk s = true) :
    s.homingState = HomingState.idle ∧ s.servoIsEnabledTarget = true ∧
    s.servoIsEnabledActual = false ∧ s.actualServoStatus = 1 := by
  simp only [entryOk, Bool.and_eq_true, decide_eq_true_eq,
    Bool.not_eq_true', beq_iff_eq] at h
  exact ⟨h.1.1.1, h.1.1.2, h.1.2, h.2⟩

theorem checkStep_skip (env : TickEnv) (s : Ctrl)
    (hm : s.modbusOk = true) : checkStep env s = s := by
  simp [checkStep, hm]

theorem homingStep_idle (env : TickEnv) (s : Ctrl)
    (hi : s.homingState = HomingState.idle) : homingStep env s = s := by
  simp [homingStep, hi]

theorem enableServo_ok_fields (env : TickEnv) (s : Ctrl)
    (hm : s.modbusOk = true) (hp : (enableServoModbus env s).2 = true) :
    (enableServoModbus env s).1.modbusOk = true ∧
    (enableServoModbus env s).1.servoIsEnabledActual =
      s.servoIsEnabledActual := by
  rcases writeRegister_cases env s REG_MODBUS_SERVO_ON 1 with
    ⟨he, -, -⟩ | ⟨-, he⟩ | ⟨-, he⟩
  · have : (enableServoModbus env s).2 = false := by
      show (writeRegister env s REG_MODBUS_SERVO_ON 1).2 = false
      rw [he]
    simp [this] at hp
  · refine ⟨?_, ?_⟩
    · show (writeRegister env s REG_MODBUS_SERVO_ON 1).1.modbusOk = true
      rw [he]
      exact hm
    · show (writeRegister env s
          REG_MODBUS_SERVO_ON 1).1.servoIsEnabledActual =
        s.servoIsEnabledActual
      rw [he]
  · have : (enableServoModbus env s).2 = false := by
      show (writeRegister env s REG_MODBUS_SERVO_ON 1).2 = false
      rw [he]
    simp [this] at hp

theorem enableServo_fail_fields (env : TickEnv) (s : Ctrl)
    (hm : s.modbusOk = true) (hp : (enableServoModbus env s).2 = false) :
    (enableServoModbus env s).1.modbusOk = false ∧
    (enableServoModbus env s).1.actualServoStatus = 0 ∧
    (enableServoModbus env s).1.servoIsEnabledActual = false := by
  rcases writeRegister_cases env s REG_MODBUS_SERVO_ON 1 with
    ⟨-, hmf, -⟩ | ⟨-, he⟩ | ⟨-, he⟩
  · exact absurd hmf (by simp [hm])
  · have : (enableServoModbus env s).2 = true := by
      show (writeRegister env s REG_MODBUS_SERVO_ON 1).2 = true
      rw [he]
    simp [this] at hp
  · refine ⟨?_, ?_, ?_⟩
    · show (writeRegister env s REG_MODBUS_SERVO_ON 1).1.modbusOk = false
      rw [he]
    · show (writeRegister env s REG_MODBUS_SERVO_ON 1).1.actualServoStatus = 0
      rw [he]
    · show (writeRegister env s
          REG_MODBUS_SERVO_ON 1).1.servoIsEnabledActual = false
      rw [he]

end CableMachine

namespace CableMachine

theorem servoStep_linkdown (env : TickEnv) (m : Ctrl)
    (hi : m.homingState = HomingState.idle) (hm : m.modbusOk = false)
    (hst : m.actualServoStatus ≠ 1) :
    enableCount (servoStep env m) = enableCount m ∧
    linkDowned (servoStep env m) := by
  simp only [servoStep]
  rw [if_pos hi, if_neg (by simp [hm])]
  split
  · exact ⟨rfl, hm, by simp⟩
  · exact ⟨rfl, hm, hst⟩

theorem servoStep_latched (env : TickEnv) (m : Ctrl)
    (hi : m.homingState = HomingState.idle) (hl : m.enableCmdSent = true)
    (hm : m.modbusOk = true) (ht : m.servoIsEnabledTarget = true) :
    enableCount (servoStep env m) = enableCount m ∧
    (latchArmed (servoStep env m) ∨ linkDowned (servoStep env m)) := by
  simp only [servoStep]
  rw [if_pos hi, if_pos hm]
  by_cases ha : m.servoIsEnabledActual = true
  · rw [if_neg (show ¬((m.servoIsEnabledTarget &&
        !m.servoIsEnabledActual) = true) by simp [ha]),
      if_neg (show ¬((!m.servoIsEnabledTarget &&
        m.servoIsEnabledActual) = true) by simp [ht]),
      if_neg (show ¬((!m.servoIsEnabledTarget &&
        !m.servoIsEnabledActual) = true) by simp [ht]),
      if_pos (ha : ({ m with enableCmdSent := true } :
        Ctrl).servoIsEnabledActual = true)]
    constructor
    · rw [enableCount_wr_torque, enableCount_set_latch]
    · rcases writeRegister_cases env ({ m with enableCmdSent := true } :
          Ctrl) REG_TARGET_TORQUE (({ m with enableCmdSent := true } :
          Ctrl).currentTargetTorque) with ⟨-, hmf, -⟩ | ⟨-, he⟩ | ⟨-, he⟩
      · exact absurd hmf (by simp [hm])
      · left
        refine ⟨?_, ?_⟩
        · rw [writeRegister_fst_enableCmdSent]
        · show (writeRegister env ({ m with enableCmdSent := true } : Ctrl)
              REG_TARGET_TORQUE (({ m with enableCmdSent := true } :
              Ctrl).currentTargetTorque)).1.modbusOk = true
          rw [he]
          exact hm
      · right
        refine ⟨?_, ?_⟩
        · show (writeRegister env ({ m with enableCmdSent := true } : Ctrl)
              REG_TARGET_TORQUE (({ m with enableCmdSent := true } :
              Ctrl).currentTargetTorque)).1.modbusOk = false
          rw [he]
        · show (writeRegister env ({ m with enableCmdSent := true } : Ctrl)
              REG_TARGET_TORQUE (({ m with enableCmdSent := true } :
              Ctrl).currentTargetTorque)).1.actualServoStatus ≠ 1
          rw [he]
          simp
  · have ha2 : m.servoIsEnabledActual = false := by simpa using ha
    rw [if_pos (show (m.servoIsEnabledTarget &&
        !m.servoIsEnabledActual) = true by simp [ht, ha2]),
      if_neg (show ¬(m.actualServoStatus = 1 ∧
        m.enableCmdSent = false) by simp [hl]),
      if_neg (ha : ¬(m.servoIsEnabledActual = true))]
    exact ⟨rfl, Or.inl ⟨hl, hm⟩⟩

end CableMachine

namespace CableMachine

theorem servoStep_count (env : TickEnv) (s : Ctrl)
    (hi : s.homingState = HomingState.idle) :
    enableCount (servoStep env s) = enableCount s ∨
    (enableCount (servoStep env s) = enableCount s + 1 ∧
      (latchArmed (servoStep env s) ∨ linkDowned (servoStep env s))) := by
  by_cases hm : s.modbusOk = true
  · by_cases ht : (s.servoIsEnabledTarget && !s.servoIsEnabledActual) = true
    · by_cases he : s.actualServoStatus = 1 ∧ s.enableCmdSent = false
      · have ha2 : s.servoIsEnabledActual = false := by
          have ht2 := ht
          simp only [Bool.and_eq_true, Bool.not_eq_true'] at ht2
          exact ht2.2
        by_cases hp : (enableServoModbus env s).2 = true
        · obtain ⟨hpm, hpa⟩ := enableServo_ok_fields env s hm hp
          right
          simp only [servoStep]
          rw [if_pos hi, if_pos hm, if_pos ht, if_pos he, if_pos hp,
            if_neg (show ¬(({ (enableServoModbus env s).1 with
              enableCmdSent := true } : Ctrl).servoIsEnabledActual = true) by
              simp only [hpa, ha2]
              simp)]
          refine ⟨?_, Or.inl ⟨rfl, ?_⟩⟩
          · rw [enableCount_set_latch]
            exact enableCount_enable_ok env s hm
          · exact hpm
        · have hp2 : (enableServoModbus env s).2 = false := by simpa using hp
          obtain ⟨hpm, hps, hpa⟩ := enableServo_fail_fields env s hm hp2
          right
          simp only [servoStep]
          rw [if_pos hi, if_pos hm, if_pos ht, if_pos he, if_neg hp,
            if_neg (show ¬((enableServoModbus
              env s).1.servoIsEnabledActual = true) by simp [hpa])]
          exact ⟨enableCount_enable_ok env s hm,
            Or.inr ⟨hpm, by simp [hps]⟩⟩
      · left
        simp only [servoStep]
        rw [if_pos hi, if_pos hm, if_pos ht, if_neg he]
        split <;> simp only [enableCount_wr_torque]
    · by_cases hd : (!s.servoIsEnabledTarget && s.servoIsEnabledActual) = true
      · left
        simp only [servoStep]
        rw [if_pos hi, if_pos hm, if_neg ht, if_pos hd]
        split <;> split <;>
          simp only [enableCount_wr_torque, enableCount_set_latch,
            enableCount_disable]
      · left
        simp only [servoStep]
        rw [if_pos hi, if_pos hm, if_neg ht, if_neg hd]
        split <;> split <;>
          simp only [enableCount_wr_torque, enableCount_set_latch]
  · left
    simp only [servoStep]
    rw [if_pos hi, if_neg hm]
    split <;> rfl

end CableMachine

namespace CableMachine

theorem readServoData_allOk (c : ReadCycle) (s : Ctrl)
    (hm : s.modbusOk = true) (hc : c.allOk = true) :
    (readServoData c s).1.modbusOk = true ∧
    (readServoData c s).1.servoIsEnabledTarget = s.servoIsEnabledTarget := by
  simp [readServoData, applyReads, hm, hc]

theorem tick_count_latched (env : TickEnv) (s : Ctrl)
    (hok : entryOk s = true) (hq : latchArmed s) :
    enableCount (tick env s) = enableCount s ∧
    (latchArmed (tick env s) ∨ linkDowned (tick env s)) := by
  obtain ⟨hi, ht, ha, hst⟩ := entryOk_dest s hok
  have hcs : checkStep env s = s := checkStep_skip env s hq.2
  by_cases hr : env.readDue = true
  · have hrs : readStep env s = (readServoData env.cycle s).1 := by
      simp [readStep, hq.2, hr]
    have hmi : (readServoData env.cycle s).1.homingState =
        HomingState.idle := by
      rw [readServoData_fst_homingState]
      exact hi
    have hh : homingStep env (readServoData env.cycle s).1 =
        (readServoData env.cycle s).1 := homingStep_idle env _ hmi
    have htick : tick env s =
        servoStep env (readServoData env.cycle s).1 := by
      rw [tick, tickPre, hcs, hrs, hh]
    rw [htick]
    have hlatch : (readServoData env.cycle s).1.enableCmdSent = true := by
      rw [readServoData_fst_enableCmdSent]
      exact hq.1
    by_cases hco : env.cycle.allOk = true
    · obtain ⟨hmok, htar⟩ := readServoData_allOk env.cycle s hq.2 hco
      have hs := servoStep_latched env (readServoData env.cycle s).1 hmi
        hlatch hmok (htar.trans ht)
      exact ⟨by rw [hs.1, enableCount_read], hs.2⟩
    · have hco2 : env.cycle.allOk = false := by simpa using hco
      by_cases hge : MAX_MODBUS_ERRORS ≤ s.modbusConsecutiveErrors + 1
      · obtain ⟨hmok, -, -, hst0, -⟩ :=
          readServoData_fail_ge env.cycle s hq.2 hco2 hge
        have hs := servoStep_linkdown env (readServoData env.cycle s).1 hmi
          hmok (by simp [hst0])
        exact ⟨by rw [hs.1, enableCount_read], Or.inr hs.2⟩
      · have hlt : s.modbusConsecutiveErrors + 1 < MAX_MODBUS_ERRORS := by
          omega
        obtain ⟨hmok, -, htar, -⟩ :=
          readServoData_fail_lt env.cycle s hq.2 hco2 hlt
        have hs := servoStep_latched env (readServoData env.cycle s).1 hmi
          hlatch hmok (htar.trans ht)
        exact ⟨by rw [hs.1, enableCount_read], hs.2⟩
  · have hr2 : env.readDue = false := by simpa using hr
    have hrs : readStep env s = s := by simp [readStep, hr2]
    have hh : homingStep env s = s := homingStep_idle env s hi
    have htick : tick env s = servoStep env s := by
      rw [tick, tickPre, hcs, hrs, hh]
    rw [htick]
    exact servoStep_latched env s hi hq.1 hq.2 ht

theorem tick_count (env : TickEnv) (s : Ctrl)
    (hi : s.homingState = HomingState.idle) :
    enableCount (tick env s) = enableCount s ∨
    (enableCount (tick env s) = enableCount s + 1 ∧
      (latchArmed (tick env s) ∨ linkDowned (tick env s))) := by
  have h1 : (tickPre env s).homingState = HomingState.idle := by
    rw [tickPre_homingState]
    exact hi
  have hh : homingStep env (tickPre env s) = tickPre env s :=
    homingStep_idle env _ h1
  have htick : tick env s = servoStep env (tickPre env s) := by
    rw [tick, hh]
  have hcnt : enableCount (tickPre env s) = enableCount s := by
    rw [tickPre, enableCount_readStep, enableCount_checkStep]
  rw [htick]
  rcases servoStep_count env (tickPre env s) h1 with h | ⟨h, hqr⟩
  · left
    rw [h, hcnt]
  · right
    exact ⟨by rw [h, hcnt], hqr⟩

end CableMachine

namespace CableMachine

theorem enableCount_applyCmd (env : TickEnv) (s : Ctrl) (c : Cmd) :
    enableCount (applyCmd env s c) = enableCount s := by
  cases c with
  | setTorque v => rfl
  | enableServo => rfl
  | disableServo => rfl
  | setDI5Func v =>
    simp only [applyCmd]
    split
    · rw [enableCount_wr_di5]
    · rfl
  | startHoming =>
    simp only [applyCmd, onStartHoming]
    split <;> rfl
  | eStop =>
    simp only [applyCmd, eStopCmd]
    rw [enableCount_disable]
    rfl

theorem writeRegister_snd_false_chain (env : TickEnv) (s : Ctrl)
    (h2 : (writeRegister env s REG_MODBUS_SERVO_ON 0).2 = false) :
    (writeRegister env (writeRegister env s REG_MODBUS_SERVO_ON 0).1
      REG_TARGET_TORQUE 0).1.modbusOk = false := by
  rcases writeRegister_cases env s REG_MODBUS_SERVO_ON 0 with
    ⟨he, hm0, -⟩ | ⟨-, he⟩ | ⟨-, he⟩
  · refine writeRegister_modbusOk_false env _ _ _ ?_
    rw [he]
    exact hm0
  · rw [he] at h2
    simp at h2
  · refine writeRegister_modbusOk_false env _ _ _ ?_
    rw [he]

theorem disableServoModbus_link (env : TickEnv) (s : Ctrl) :
    ((disableServoModbus env s).1.modbusOk = true ∧ s.modbusOk = true) ∨
    ((disableServoModbus env s).1.modbusOk = false ∧
      ((disableServoModbus env s).1.actualServoStatus = 0 ∨
        (disableServoModbus env s).1.actualServoStatus = 3)) := by
  have hchain : s.modbusOk = false →
      (writeRegister env (writeRegister env s REG_MODBUS_SERVO_ON 0).1
        REG_TARGET_TORQUE 0).1.modbusOk = false := fun hm0 =>
    writeRegister_modbusOk_false env _ _ _
      (writeRegister_modbusOk_false env _ _ _ hm0)
  simp only [disableServoModbus]
  split
  · next h =>
    simp only [Bool.or_eq_true, Bool.not_eq_true'] at h
    have hq : (writeRegister env (writeRegister env s
        REG_MODBUS_SERVO_ON 0).1 REG_TARGET_TORQUE 0).1.modbusOk =
        false := by
      rcases h with h | h
      · exact writeRegister_snd_false_chain env s h
      · exact h
    right
    refine ⟨hq, ?_⟩
    split <;> simp
  · next h =>
    simp only [Bool.or_eq_true, Bool.not_eq_true', not_or] at h
    by_cases hm : s.modbusOk = true
    · exact Or.inl ⟨by simpa using h.2, hm⟩
    · have := hchain (by simpa using hm)
      exact absurd h.2 (by simp [this])

theorem applyCmd_QR (env : TickEnv) (s : Ctrl) (c : Cmd)
    (h : latchArmed s ∨ linkDowned s) :
    latchArmed (applyCmd env s c) ∨ linkDowned (applyCmd env s c) := by
  cases c with
  | setTorque v => exact h
  | enableServo => exact h
  | disableServo => exact h
  | setDI5Func v =>
    simp only [applyCmd]
    split
    · next hm =>
      rcases h with hq | hr
      · rcases writeRegister_cases env s REG_DI5_FUNCTION v with
          ⟨he, -, -⟩ | ⟨-, he⟩ | ⟨-, he⟩
        · rw [he]
          exact Or.inl hq
        · rw [he]
          exact Or.inl ⟨hq.1, hq.2⟩
        · rw [he]
          exact Or.inr ⟨rfl, by simp⟩
      · exact absurd hm (by simp [hr.1])
    · exact h
  | startHoming =>
    simp only [applyCmd, onStartHoming]
    split
    · rcases h with hq | hr
      · exact Or.inl ⟨hq.1, hq.2⟩
      · exact Or.inr ⟨hr.1, hr.2⟩
    · exact h
  | eStop =>
    simp only [applyCmd, eStopCmd]
    rcases disableServoModbus_link env { s with
        servoIsEnabledTarget := false, currentTargetTorque := 0,
        homingState := HomingState.idle } with ⟨h1, h2⟩ | ⟨h1, h2⟩
    · rcases h with hq | hr
      · refine Or.inl ⟨?_, h1⟩
        rw [disableServoModbus_fst_enableCmdSent]
        exact hq.1
      · exact absurd h2 (by simp [show s.modbusOk = false from hr.1])
    · right
      refine ⟨h1, ?_⟩
      rcases h2 with h2 | h2 <;> simp [h2]

theorem enableCount_applyCmds (env : TickEnv) (cs : List Cmd) :
    ∀ s : Ctrl, enableCount (applyCmds env s cs) = enableCount s := by
  induction cs with
  | nil => intro s; rfl
  | cons c cs ih =>
    intro s
    exact (ih (applyCmd env s c)).trans (enableCount_applyCmd env s c)

theorem applyCmds_QR (env : TickEnv) (cs : List Cmd) :
    ∀ s : Ctrl, (latchArmed s ∨ linkDowned s) →
      latchArmed (applyCmds env s cs) ∨ linkDowned (applyCmds env s cs) := by
  induction cs with
  | nil => intro s h; exact h
  | cons c cs ih =>
    intro s h
    exact ih (applyCmd env s c) (applyCmd_QR env s c h)

end CableMachine

namespace CableMachine

theorem goodRun_count_latched : ∀ (steps : List Step) (s : Ctrl),
    (latchArmed s ∨ linkDowned s) → goodRun s steps = true →
    enableCount (run s steps) = enableCount s := by
  intro steps
  induction steps with
  | nil => intro s _ _; rfl
  | cons st rest ih =>
    intro s hqr hg
    have hg2 : entryOk (applyCmds st.env s st.cmds) = true ∧
        goodRun (runStep s st) rest = true := by
      simpa [goodRun] using hg
    have hqr1 := applyCmds_QR st.env st.cmds s hqr
    have hq1 : latchArmed (applyCmds st.env s st.cmds) := by
      rcases hqr1 with q | r
      · exact q
      · exact absurd (entryOk_dest _ hg2.1).2.2.2 r.2
    have htc := tick_count_latched st.env (applyCmds st.env s st.cmds)
      hg2.1 hq1
    have hrun : run s (st :: rest) = run (runStep s st) rest := rfl
    rw [hrun, ih (runStep s st) htc.2 hg2.2]
    show enableCount (tick st.env (applyCmds st.env s st.cmds)) = _
    rw [htc.1, enableCount_applyCmds]

/-- Claim C7 (amended): across any execution every tick of which starts
(after its commands) with the transition controller active — HomingState
Idle, DesiredEnable on, ObservedEnable off, DriveStatus Ready — at most
one enable command write (0x0411, 1) is placed on the bus: the latch
blocks re-issue once set, it is set on success, and it is cleared only
by a successful disable, by latch reconciliation, by the link-failure
path, or by the reconnect re-initialization. (The restriction to
HomingState Idle is required: the homing state machine issues its own
enable writes outside the latch.) -/
theorem enable_at_most_once_amended : ∀ (steps : List Step) (s0 : Ctrl),
    goodRun s0 steps = true →
    enableCount (run s0 steps) ≤ enableCount s0 + 1 := by
  intro steps
  induction steps with
  | nil => intro s0 _; exact Nat.le_succ _
  | cons st rest ih =>
    intro s0 hg
    have hg2 : entryOk (applyCmds st.env s0 st.cmds) = true ∧
        goodRun (runStep s0 st) rest = true := by
      simpa [goodRun] using hg
    have hidle := (entryOk_dest _ hg2.1).1
    have hrun : run s0 (st :: rest) = run (runStep s0 st) rest := rfl
    rw [hrun]
    have hcmds : enableCount (applyCmds st.env s0 st.cmds) =
        enableCount s0 := enableCount_applyCmds st.env st.cmds s0
    rcases tick_count st.env (applyCmds st.env s0 st.cmds) hidle with
      h | ⟨h, hqr⟩
    · have hrec := ih (runStep s0 st) hg2.2
      have he : enableCount (runStep s0 st) = enableCount s0 := by
        show enableCount (tick st.env (applyCmds st.env s0 st.cmds)) = _
        rw [h, hcmds]
      omega
    · have he : enableCount (runStep s0 st) = enableCount s0 + 1 := by
        show enableCount (tick st.env (applyCmds st.env s0 st.cmds)) = _
        rw [h, hcmds]
      have hz := goodRun_count_latched rest (runStep s0 st) hqr hg2.2
      omega

/-- A state in which the operator has requested enable (target on,
drive Ready) and then armed homing, which is still in its Start
phase. -/
def ctrlArmHoming : Ctrl :=
  { initCtrl with modbusOk := true, servoIsEnabledTarget := true, actualServoStatus := 1, homingState := HomingState.start }

/-- Two ticks: the homing Start sequence runs, then the start timeout
aborts homing and the transition controller runs in the same tick. -/
def dupEnableRun : List Step :=
  [⟨[], envAllOk⟩, ⟨[], envTimeout⟩]

/-- Counterexample to C7 as stated: both ticks of this run begin with
DesiredEnable true, ObservedEnable false and DriveStatus Ready, yet two
enable command writes (0x0411, 1) are placed on the bus — one by the
homing Start sequence (which ignores the latch), and a second by the
transition controller right after the timeout abort returns homing to
Idle within the same tick. -/
theorem duplicate_enable_during_homing_cex :
    ctrlArmHoming.servoIsEnabledTarget = true ∧
    ctrlArmHoming.servoIsEnabledActual = false ∧
    ctrlArmHoming.actualServoStatus = 1 ∧
    (runStep ctrlArmHoming ⟨[], envAllOk⟩).servoIsEnabledTarget = true ∧
    (runStep ctrlArmHoming ⟨[], envAllOk⟩).servoIsEnabledActual = false ∧
    (runStep ctrlArmHoming ⟨[], envAllOk⟩).actualServoStatus = 1 ∧
    enableCount (run ctrlArmHoming dupEnableRun) = 2 := by
  decide

/-- A state in which the transition controller is about to issue the
single enable write. -/
def ctrlEntryReady : Ctrl :=
  { initCtrl with modbusOk := true, servoIsEnabledTarget := true, actualServoStatus := 1 }

/-- Two quiet ticks with the controller active throughout. -/
def twoTickRun : List Step :=
  [⟨[], envAllOk⟩, ⟨[], envAllOk⟩]

/-- Witness for C7: over two controller-active ticks exactly one enable
write goes out, within the proved bound. -/
theorem enable_at_most_once_amended_witness :
    goodRun ctrlEntryReady twoTickRun = true ∧
    enableCount (run ctrlEntryReady twoTickRun) = 1 ∧
    enableCount (run ctrlEntryReady twoTickRun) ≤
      enableCount ctrlEntryReady + 1 :=
  ⟨by decide, by decide,
    enable_at_most_once_amended twoTickRun ctrlEntryReady (by decide)⟩

end CableMachine
